import Mathlib

/-!
# Verification of the Equation Heaters Home Assistant integration

Shallow embedding of `custom_components/equation_ha` (device manager and
climate entity) and proofs about its claims.

Modelling conventions:
* Python floats carrying temperatures are modelled as `ℚ`: the code only
  assigns and compares them for equality, never computes with them.
* A vendor API call (`equation_api.*`) is external: its success flag is an
  input to each embedded function, and the call itself is recorded in a
  `calls` trace so that "invokes exactly one vendor API call" is provable.
* Python `dict`s keyed by device id are association lists whose insert
  keeps the position of an existing key and appends new keys at the end,
  matching Python dict ordering semantics.
-/

/-! ## Constants from `const.py` -/

def DOMAIN : String := "equation_ha"

def EQUATION_SUPPORTED_DEVICES : List String := ["radiator", "towel", "therm"]

def CMD_SET_TEMP : String := "cmd_set_temp"

def CMD_SET_PRESET : String := "cmd_set_preset"

def CMD_HVAC_OFF : String := "cmd_turn_off"

def CMD_SET_HVAC_MODE : String := "cmd_set_hvac_mode"

def RADIATOR_DEFAULT_TEMPERATURE : ℚ := 20

def PRESET_EQUATION_ICE : String := "Anti-frost"

def RADIATOR_TEMP_STEP : ℚ := 1/2

def RADIATOR_TEMP_MIN : ℚ := 7

def RADIATOR_TEMP_MAX : ℚ := 30

def RADIATOR_PRESET_ECO : String := "eco"

def RADIATOR_PRESET_COMFORT : String := "comfort"

def RADIATOR_PRESET_ICE : String := "ice"

def RADIATOR_PRESET_NONE : String := "none"

def RADIATOR_MODE_AUTO : String := "auto"

def RADIATOR_MODE_MANUAL : String := "manual"

/-! ## Home Assistant framework constants (external collaborator surface).
These are the string values of `homeassistant.components.climate`'s
`HVACMode`, `HVACAction`, `PRESET_COMFORT` and `PRESET_ECO`. -/

def HVACMode.OFF : String := "off"

def HVACMode.HEAT : String := "heat"

def HVACMode.AUTO : String := "auto"

def HVACAction.OFF : String := "off"

def HVACAction.HEATING : String := "heating"

def PRESET_COMFORT : String := "comfort"

def PRESET_ECO : String := "eco"

/-! ## Vendor SDK data model (`equationsdk`, external).
Only the parts the repository reads are modelled. -/

/-- `equationsdk.device.ScheduleMode`: external enum; the code distinguishes
`COMFORT`, `ECO` and everything else. -/
inductive ScheduleMode
  | comfort
  | eco
  | other
deriving DecidableEq

/-- `equationsdk.dto.EnergyConsumptionData`: opaque payload passed through. -/
structure EnergyConsumptionData where
  raw : String
deriving DecidableEq

/-- The dict stored under the `"data"` key of a device API payload; fields
the repository reads, each `none` when that key is missing from the dict.
`other_keys` records whether the dict holds keys beyond the three tracked
ones, so that Python truthiness (dict non-emptiness) is determined. -/
structure DeviceDataPayload where
  type : Option String
  product_version : Option String
  name : Option String
  other_keys : Bool
deriving DecidableEq

/-- Python truthiness of the `"data"` dict value: the dict is truthy iff it
is non-empty, i.e. holds at least one key. -/
def DeviceDataPayload.isTruthy (p : DeviceDataPayload) : Bool :=
  p.type.isSome || p.product_version.isSome || p.name.isSome || p.other_keys

/-- The dict stored under the `"firmware"` key of a device API payload. -/
structure FirmwareInfo where
  firmware_version_device : Option String
deriving DecidableEq

/-- A device API payload (`device_data` dict): `data` is the value of its
`"data"` key (`none` when the key is ABSENT; a present value is a dict,
possibly empty and therefore falsy) and `firmware` the value of its
`"firmware"` key (`none` when absent). API payloads are JSON objects, so a
present key maps to a dict; indexing an absent key (`device_data["data"]`,
`device_data["firmware"]`) raises `KeyError`, modelled as the `none` result
of the functions below. -/
structure DeviceData where
  data : Option DeviceDataPayload
  firmware : Option FirmwareInfo
deriving DecidableEq

/-- The firmware map `dict[EquationProduct, dict[str, str]]`, with
`EquationProduct` abstracted to its product identifier string. -/
def FwMap : Type := List (String × List (String × String))

instance : DecidableEq FwMap := by
  unfold FwMap
  infer_instance

/-- `equationsdk.device.EquationDevice`: mirrored device state, with the
fields the repository reads and writes. `sdk_data`, `sdk_energy` and
`sdk_latest_fw` stand for the vendor payload held by the SDK object. -/
structure EquationDevice where
  id : String
  name : String
  power : Bool
  mode : String
  preset : String
  temp : ℚ
  comfort_temp : ℚ
  eco_temp : ℚ
  ice_temp : ℚ
  temp_probe : ℚ
  ice_mode : Bool
  schedule_mode : ScheduleMode
  hass_available : Bool
  sdk_data : Option DeviceData
  sdk_energy : Option EnergyConsumptionData
  sdk_latest_fw : Option String
deriving DecidableEq

/-- Modelled from the spec: `EquationDevice.update_data` lives in the
external `equationsdk` package (absent from `src/`); per the spec it merges
an API response into the device's mirrored state. Modelled as replacing the
stored vendor payload, energy data and firmware; the integration-owned
`hass_available` flag is not an API field and is left untouched. -/
def EquationDevice.update_data (d : EquationDevice) (device_data : DeviceData)
    (energy : Option EnergyConsumptionData) (latest_fw : Option String) : EquationDevice :=
  { d with sdk_data := some device_data, sdk_energy := energy, sdk_latest_fw := latest_fw }

/-- Modelled from the spec: the `EquationDevice` constructor of the external
`equationsdk` package (absent from `src/`); builds a fresh mirrored device
from an API payload, with `id` the given device id. -/
def EquationDevice.fromApi (device_data : DeviceData)
    (energy : Option EnergyConsumptionData) (device_id : String)
    (latest_fw : Option String) : EquationDevice :=
  { id := device_id
    name := ((device_data.data.map DeviceDataPayload.name).join).getD ""
    power := false
    mode := RADIATOR_MODE_AUTO
    preset := RADIATOR_PRESET_NONE
    temp := RADIATOR_DEFAULT_TEMPERATURE
    comfort_temp := RADIATOR_DEFAULT_TEMPERATURE
    eco_temp := RADIATOR_DEFAULT_TEMPERATURE
    ice_temp := RADIATOR_DEFAULT_TEMPERATURE
    temp_probe := RADIATOR_DEFAULT_TEMPERATURE
    ice_mode := false
    schedule_mode := ScheduleMode.other
    hass_available := true
    sdk_data := some device_data
    sdk_energy := energy
    sdk_latest_fw := latest_fw }

/-! ## Vendor API calls and command results -/

/-- One call into the vendor `equation_api` (the calls the device manager
makes when sending commands). -/
inductive ApiCall
  | set_device_temp (device_id : String) (new_temp : ℚ)
  | set_device_mode (device_id : String) (hvac_mode : String)
  | set_device_preset (device_id : String) (preset : String)
deriving DecidableEq

/-- Result of an embedded device-manager command: the device state after the
call, the boolean the Python function returns, and the vendor calls made. -/
structure CmdResult where
  device : EquationDevice
  ok : Bool
  calls : List ApiCall
deriving DecidableEq

/-- The dynamic `arg` of `send_command`: a float for `CMD_SET_TEMP`, a
string for the preset and HVAC-mode commands (as at every call site of the
repository). -/
inductive CmdArg
  | num (t : ℚ)
  | str (s : String)
deriving DecidableEq

def CmdArg.toRat : CmdArg → ℚ
  | .num t => t
  | .str _ => 0

def CmdArg.toStr : CmdArg → String
  | .str s => s
  | .num _ => ""

/-! ## `EquationDeviceManager` command handlers (`device_manager.py`) -/

/-- `EquationDeviceManager._set_device_temp`, with the vendor call's success
flag as input. -/
def _set_device_temp (api_success : Bool) (device : EquationDevice)
    (new_temp : ℚ) : CmdResult :=
  let calls := [ApiCall.set_device_temp device.id new_temp]
  if ¬ api_success then
    ⟨{ device with hass_available := false }, false, calls⟩
  else
    let preset :=
      if new_temp = device.comfort_temp then RADIATOR_PRESET_COMFORT
      else if new_temp = device.eco_temp then RADIATOR_PRESET_ECO
      else if new_temp = device.ice_temp then RADIATOR_PRESET_ICE
      else RADIATOR_PRESET_NONE
    ⟨{ device with
        temp := new_temp
        mode := RADIATOR_MODE_MANUAL
        power := true
        preset := preset }, true, calls⟩

/-- `EquationDeviceManager._set_device_mode`. -/
def _set_device_mode (api_success : Bool) (device : EquationDevice)
    (hvac_mode : String) : CmdResult :=
  let calls := [ApiCall.set_device_mode device.id hvac_mode]
  if ¬ api_success then
    ⟨{ device with hass_available := false }, false, calls⟩
  else if hvac_mode = HVACMode.OFF then
    let device :=
      if device.mode = RADIATOR_MODE_MANUAL then
        { device with temp := RADIATOR_DEFAULT_TEMPERATURE }
      else device
    ⟨{ device with power := false, preset := HVACMode.OFF }, true, calls⟩
  else if hvac_mode = HVACMode.HEAT then
    ⟨{ device with
        temp := device.comfort_temp
        power := true
        mode := RADIATOR_MODE_MANUAL
        preset := RADIATOR_PRESET_NONE }, true, calls⟩
  else if hvac_mode = RADIATOR_MODE_MANUAL then
    let device1 :=
      match device.schedule_mode with
      | ScheduleMode.comfort =>
          { device with temp := device.comfort_temp, preset := RADIATOR_PRESET_COMFORT }
      | ScheduleMode.eco =>
          { device with temp := device.eco_temp, preset := RADIATOR_PRESET_ECO }
      | ScheduleMode.other =>
          if device.ice_mode then
            { device with temp := device.ice_temp, preset := RADIATOR_PRESET_ICE }
          else
            { device with temp := RADIATOR_DEFAULT_TEMPERATURE }
    ⟨{ device1 with power := true, mode := RADIATOR_MODE_MANUAL }, true, calls⟩
  else
    ⟨device, true, calls⟩

/-- `EquationDeviceManager._set_device_preset`. The vendor call receives the
locally computed target preset (`device_preset` in the source). -/
def _set_device_preset (api_success : Bool) (device : EquationDevice)
    (preset : String) : CmdResult :=
  let target :=
    if preset = PRESET_COMFORT then (true, RADIATOR_MODE_MANUAL, RADIATOR_PRESET_COMFORT)
    else if preset = PRESET_ECO then (true, RADIATOR_MODE_MANUAL, RADIATOR_PRESET_ECO)
    else if preset = PRESET_EQUATION_ICE then (true, RADIATOR_MODE_MANUAL, RADIATOR_PRESET_ICE)
    else (device.power, device.mode, device.preset)
  let calls := [ApiCall.set_device_preset device.id target.2.2]
  if ¬ api_success then
    ⟨{ device with hass_available := false }, false, calls⟩
  else
    ⟨{ device with power := target.1, mode := target.2.1, preset := target.2.2 }, true, calls⟩

/-- `EquationDeviceManager.send_command`: dispatch on the command string. -/
def send_command (api_success : Bool) (device : EquationDevice)
    (command : String) (arg : CmdArg) : CmdResult :=
  if command = CMD_SET_TEMP then
    _set_device_temp api_success device arg.toRat
  else if command = CMD_SET_PRESET then
    _set_device_preset api_success device arg.toStr
  else if command = CMD_SET_HVAC_MODE then
    _set_device_mode api_success device arg.toStr
  else
    ⟨device, false, []⟩

/-! ## Dictionaries keyed by device id -/

/-- Association-list lookup, the model of Python `dict` indexing by key. -/
def alistGet {β : Type} : List (String × β) → String → Option β
  | [], _ => none
  | (k, v) :: rest, key => if k = key then some v else alistGet rest key

/-- Association-list insert with Python `dict` semantics: assigning to an
existing key keeps its position, a new key is appended at the end. -/
def dictInsert {β : Type} (key : String) (v : β) : List (String × β) → List (String × β)
  | [] => [(key, v)]
  | (k, w) :: rest =>
    if k = key then (k, v) :: rest else (k, w) :: dictInsert key v rest

/-- First-occurrence deduplication: the key order of the Python dict
`device_data_futures` built by iterating over `user_device_ids`. -/
def dedupKeys (seen : List String) : List String → List String
  | [] => []
  | x :: xs => if x ∈ seen then dedupKeys seen xs else x :: dedupKeys (x :: seen) xs

/-- The device cache `EquationDeviceManager.equation_devices`. -/
def DeviceDict : Type := List (String × EquationDevice)

instance : DecidableEq DeviceDict := by
  unfold DeviceDict
  infer_instance

/-! ## The `update` pipeline (`device_manager.py`) -/

/-- `equationsdk.equation_api.ApiResponse` (external): a success flag and a
payload. -/
structure ApiResponse (α : Type) where
  success : Bool
  data : α
deriving DecidableEq

/-- The external inputs of one `EquationDeviceManager.update()` run: the
installation-devices response, the per-device base-data and energy
responses, the firmware-map response, and the SDK product lookup
`get_product_by_type_version` (external, abstracted to a function). -/
structure UpdateEnv where
  installation_response : ApiResponse (List String)
  base_data : String → ApiResponse DeviceData
  energy_data : String → ApiResponse EnergyConsumptionData
  firmware_response : ApiResponse (Option FwMap)
  product_lookup : Option String → Option String → Option String

/-- `EquationDeviceManager._fail_all_devices`: mark every cached device
unavailable. -/
def _fail_all_devices (cache : DeviceDict) : DeviceDict :=
  cache.map (fun kv => (kv.1, { kv.2 with hass_available := false }))

/-- Python truthiness of an optional string read from a dict: absent or
empty is falsy. -/
def optStrTruthy : Option String → Bool
  | none => false
  | some s => !(s == "")

/-- `determine_latest_firmware` (`device_manager.py`). `product_lookup`
models the external `get_product_by_type_version`; `device_data = none`
models a falsy `device_data` argument. The source indexes
`device_data["firmware"]` directly (line 44): when the `"firmware"` key is
absent this raises `KeyError`, modelled as the outer `none`; a present (even
empty or falsy) `"data"` value passes the `"data" not in device_data` check
and proceeds. -/
def determine_latest_firmware (product_lookup : Option String → Option String → Option String)
    (device_data : Option DeviceData) (fw_map : FwMap) : Option (Option String) :=
  match device_data with
  | none => some none
  | some dd =>
    match dd.data with
    | none => some none
    | some payload =>
      let product_type := payload.type
      let version := payload.product_version
      match dd.firmware with
      | none => none
      | some fwinfo =>
        let current_firmware := fwinfo.firmware_version_device
        if !(optStrTruthy product_type) && !(optStrTruthy version)
            && !(optStrTruthy current_firmware) then
          some none
        else
          match product_lookup product_type version with
          | none => some none
          | some product =>
            match alistGet fw_map product, current_firmware with
            | some m, some cf =>
              match alistGet m cf with
              | some fw => some (some fw)
              | none => some current_firmware
            | _, _ => some current_firmware

/-- The firmware map `update()` settles on: the response's data when the
request succeeded and the map is truthy (non-empty), else `none`. -/
def fwMapOf (resp : ApiResponse (Option FwMap)) : Option FwMap :=
  if resp.success then
    match resp.data with
    | some m => if m.isEmpty then none else some m
    | none => none
  else none

/-- Python truthiness of the `firmware_map` optional dict. -/
def fwTruthy : Option FwMap → Bool
  | none => false
  | some m => !m.isEmpty

/-- `EquationDeviceManager._add_or_update_device`, acting on the cache.
Returns the cache after the call and the new device (the Python return
value), or the outer `none` for the uncaught `KeyError` the source raises
at `device_data["data"]["type"]` (line 268) when a truthy payload of a NEW
device has no `"type"` key. A missing or falsy `"data"` value is dropped by
the `device_data.get("data")` truthiness guard first (lines 243-247). -/
def _add_or_update_device (cache : DeviceDict) (device_data : DeviceData)
    (energy_stats : Option EnergyConsumptionData) (device_id : String)
    (latest_fw : Option String) : Option (DeviceDict × Option EquationDevice) :=
  match device_data.data with
  | none => some (cache, none)
  | some payload =>
    if ¬ payload.isTruthy then some (cache, none)
    else
      match alistGet cache device_id with
      | some target_device =>
        let target_device :=
          if ¬ target_device.hass_available then
            { target_device with hass_available := true }
          else target_device
        let target_device := target_device.update_data device_data energy_stats latest_fw
        some (dictInsert device_id target_device cache, none)
      | none =>
        match payload.type with
        | none => none
        | some device_type =>
          if device_type ∈ EQUATION_SUPPORTED_DEVICES then
            some (cache,
              some (EquationDevice.fromApi device_data energy_stats device_id latest_fw))
          else
            some (cache, none)

/-- The `latest_fw` computation of `_process_api_data`
(`if firmware_map: latest_fw = determine_latest_firmware(...) else None`),
with `determine_latest_firmware`'s `KeyError` propagating as `none`. -/
def latestFwRun (env : UpdateEnv) (firmware_map : Option FwMap)
    (device_id : String) : Option (Option String) :=
  if fwTruthy firmware_map then
    determine_latest_firmware env.product_lookup (some (env.base_data device_id).data)
      (firmware_map.getD [])
  else some none

/-- `EquationDeviceManager._process_api_data` for one device, acting on the
cache; the outer `none` is an uncaught exception aborting `update()`. -/
def _process_api_data (env : UpdateEnv) (firmware_map : Option FwMap)
    (cache : DeviceDict) (device_id : String) :
    Option (DeviceDict × Option EquationDevice) :=
  let base_data_response := env.base_data device_id
  let energy_data_response := env.energy_data device_id
  if base_data_response.success then
    let energy_data :=
      if energy_data_response.success then some energy_data_response.data else none
    match latestFwRun env firmware_map device_id with
    | none => none
    | some latest_fw =>
      _add_or_update_device cache base_data_response.data energy_data device_id latest_fw
  else
    some (match alistGet cache device_id with
      | some target =>
        (dictInsert device_id { target with hass_available := false } cache, none)
      | none => (cache, none))

/-- One iteration of `update()`'s processing loop: `_process_api_data`
followed by `self.equation_devices[device_id] = new_device` when the device
is new; an uncaught exception propagates. -/
def updateStep (env : UpdateEnv) (firmware_map : Option FwMap)
    (cache : DeviceDict) (device_id : String) :
    Option (DeviceDict × Option EquationDevice) :=
  match _process_api_data env firmware_map cache device_id with
  | none => none
  | some (cache1, new_device) =>
    match new_device with
    | some nd => some (dictInsert device_id nd cache1, some nd)
    | none => some (cache1, none)

/-- `update()`'s processing loop over the device ids, also building the
`discovered_devices` dict (keyed by `new_device.id`); an uncaught exception
at any device aborts the whole loop, so `update()` returns nothing. -/
def updateLoop (env : UpdateEnv) (firmware_map : Option FwMap) :
    List String → DeviceDict → Option (DeviceDict × List (String × EquationDevice))
  | [], cache => some (cache, [])
  | device_id :: rest, cache =>
    match updateStep env firmware_map cache device_id with
    | none => none
    | some (cache1, new_device) =>
      match updateLoop env firmware_map rest cache1 with
      | none => none
      | some (cacheF, discovered) =>
        some (cacheF,
          match new_device with
          | some nd => (nd.id, nd) :: discovered
          | none => discovered)

/-- The unique device ids `update()` processes, in Python dict key order. -/
def processedIds (env : UpdateEnv) : List String :=
  dedupKeys [] env.installation_response.data

/-- `EquationDeviceManager.update()`: returns the cache after the run and
the discovered-devices dict, or `none` when an uncaught `KeyError` from a
malformed payload aborts the run before it returns. -/
def update (env : UpdateEnv) (cache : DeviceDict) :
    Option (DeviceDict × List (String × EquationDevice)) :=
  if ¬ env.installation_response.success then
    some (_fail_all_devices cache, [])
  else
    updateLoop env (fwMapOf env.firmware_response) (processedIds env) cache

/-! ## `EquationHaClimate` derived properties (`climate.py`) -/

/-- `EquationHaClimate.hvac_mode`. -/
def hvac_mode (r : EquationDevice) : String :=
  if !r.power then HVACMode.OFF
  else if r.mode = RADIATOR_MODE_AUTO then HVACMode.AUTO
  else HVACMode.HEAT

/-- `EquationHaClimate.hvac_action`. -/
def hvac_action (r : EquationDevice) : String :=
  if !r.power then HVACAction.OFF
  else HVACAction.HEATING

/-- `EquationHaClimate.preset_mode`. -/
def preset_mode (r : EquationDevice) : Option String :=
  if r.preset = RADIATOR_PRESET_ECO then some PRESET_ECO
  else if r.preset = RADIATOR_PRESET_COMFORT then some PRESET_COMFORT
  else if r.preset = RADIATOR_PRESET_ICE then some PRESET_EQUATION_ICE
  else none

/-- `EquationHaClimate.target_temperature`. -/
def target_temperature (r : EquationDevice) : ℚ :=
  if r.mode = RADIATOR_MODE_MANUAL then
    if r.preset = RADIATOR_PRESET_ECO then r.eco_temp
    else if r.preset = RADIATOR_PRESET_COMFORT then r.comfort_temp
    else if r.preset = RADIATOR_PRESET_ICE then r.ice_temp
    else r.temp
  else r.temp

/-! ## Execution model for the climate entity's commands -/

/-- The remembered state of an `EquationHaClimate` entity together with its
radiator (`self._radiator` and the three `_last_*` attributes). -/
structure ClimateState where
  radiator : EquationDevice
  _last_hvac_mode : Option String
  _last_target_temperature : Option ℚ
  _last_preset_mode : Option String
deriving DecidableEq

/-- Externally observable side effects of a climate command run. -/
inductive ClimateEvent
  | command (cmd : String) (arg : CmdArg)
  | refresh
  | write_state
deriving DecidableEq

/-- Outcome of an async climate command: normal return, or a raised
`HomeAssistantError` with its message. -/
inductive Outcome
  | ok
  | error (msg : String)
deriving DecidableEq

def Outcome.isOk : Outcome → Bool
  | .ok => true
  | .error _ => false

/-- The external world of a climate command run: the success of the `i`-th
vendor API call it triggers, and the radiator state the coordinator refresh
delivers the `i`-th time it is requested. -/
structure ClimateEnv where
  api_success : Nat → Bool
  refresh_device : Nat → EquationDevice

/-- Running execution state: entity state, counters into the environment's
API-call and refresh sequences, and the event trace so far. -/
structure ExecState where
  st : ClimateState
  apiIdx : Nat
  refreshIdx : Nat
  trace : List ClimateEvent

/-- `self.device_manager.send_command(self._radiator, cmd, arg)`: the
mirrored radiator is updated by the device manager and the command's
boolean result is returned. -/
def doSendCommand (env : ClimateEnv) (es : ExecState) (cmd : String)
    (arg : CmdArg) : ExecState × Bool :=
  let r := send_command (env.api_success es.apiIdx) es.st.radiator cmd arg
  (⟨{ es.st with radiator := r.device }, es.apiIdx + 1, es.refreshIdx,
      es.trace ++ [ClimateEvent.command cmd arg]⟩, r.ok)

/-- `await self.coordinator.async_request_refresh()`: the mirrored radiator
is replaced by the state the coordinator delivers. -/
def doRefresh (env : ClimateEnv) (es : ExecState) : ExecState :=
  ⟨{ es.st with radiator := env.refresh_device es.refreshIdx }, es.apiIdx,
      es.refreshIdx + 1, es.trace ++ [ClimateEvent.refresh]⟩

/-- `self.async_write_ha_state()`. -/
def doWrite (es : ExecState) : ExecState :=
  { es with trace := es.trace ++ [ClimateEvent.write_state] }

/-- Python truthiness of an optional string (`if self._last_preset_mode:`).  -/
def pyTruthyStr : Option String → Bool
  | none => false
  | some s => !(s == "")

/-- Python `a or b` on an optional string (`self._last_hvac_mode or
HVACMode.HEAT`). -/
def orStr (o : Option String) (dflt : String) : String :=
  match o with
  | none => dflt
  | some s => if s == "" then dflt else s

/-- `EquationHaClimate.async_set_preset_mode`. -/
def async_set_preset_mode (env : ClimateEnv) (es : ExecState)
    (preset : String) : ExecState × Outcome :=
  let es := { es with st := { es.st with
    _last_preset_mode := some preset
    _last_target_temperature := none } }
  let sc := doSendCommand env es CMD_SET_PRESET (CmdArg.str preset)
  if sc.2 then
    (doWrite (doRefresh env sc.1), Outcome.ok)
  else
    (sc.1, Outcome.error "Failed to set preset mode")

/-- `EquationHaClimate.async_set_temperature`. -/
def async_set_temperature (env : ClimateEnv) (es : ExecState)
    (temperature : ℚ) : ExecState × Outcome :=
  let es := { es with st := { es.st with
    _last_target_temperature := some temperature
    _last_preset_mode := none } }
  let sc := doSendCommand env es CMD_SET_TEMP (CmdArg.num temperature)
  if sc.2 then
    (doWrite (doRefresh env sc.1), Outcome.ok)
  else
    (sc.1, Outcome.error "Failed to set temperature")

/-- The retry loop of `EquationHaClimate.async_turn_off`, by remaining
attempts. The result of `send_command` is ignored; the refreshed radiator's
power is checked. -/
def turnOffGo (env : ClimateEnv) : Nat → ExecState → ExecState × Outcome
  | 0, es => (es, Outcome.error "Failed to turn off radiator")
  | n + 1, es =>
    let es1 := (doSendCommand env es CMD_SET_HVAC_MODE (CmdArg.str HVACMode.OFF)).1
    let es2 := doRefresh env es1
    if es2.st.radiator.power then turnOffGo env n es2
    else (doWrite es2, Outcome.ok)

/-- `EquationHaClimate.async_turn_off`: record the current `hvac_mode`,
`target_temperature` and `preset_mode` properties, then force OFF with up to
three attempts. -/
def async_turn_off (env : ClimateEnv) (es : ExecState) : ExecState × Outcome :=
  let st0 := es.st
  let es := { es with st := { st0 with
    _last_hvac_mode := some (hvac_mode st0.radiator)
    _last_target_temperature := some (target_temperature st0.radiator)
    _last_preset_mode := preset_mode st0.radiator } }
  turnOffGo env 3 es

/-- The retry loop of `EquationHaClimate.async_turn_on`, by remaining
attempts. On observing power, the remembered preset (if truthy) or else the
remembered target temperature (if recorded) is re-applied; an error raised
there propagates. -/
def turnOnGo (env : ClimateEnv) (hvac : String) : Nat → ExecState → ExecState × Outcome
  | 0, es => (es, Outcome.error "Failed to turn on radiator")
  | n + 1, es =>
    let es1 := (doSendCommand env es CMD_SET_HVAC_MODE (CmdArg.str hvac)).1
    let es2 := doRefresh env es1
    if es2.st.radiator.power then
      if pyTruthyStr es2.st._last_preset_mode then
        let r := async_set_preset_mode env es2 (es2.st._last_preset_mode.getD "")
        match r.2 with
        | Outcome.ok => (doWrite r.1, Outcome.ok)
        | Outcome.error m => (r.1, Outcome.error m)
      else
        match es2.st._last_target_temperature with
        | some t =>
          let r := async_set_temperature env es2 t
          match r.2 with
          | Outcome.ok => (doWrite r.1, Outcome.ok)
          | Outcome.error m => (r.1, Outcome.error m)
        | none => (doWrite es2, Outcome.ok)
    else turnOnGo env hvac n es2

/-- `EquationHaClimate.async_turn_on`: force ON with up to three attempts,
sending the remembered HVAC mode (defaulting to HEAT). -/
def async_turn_on (env : ClimateEnv) (es : ExecState) : ExecState × Outcome :=
  turnOnGo env (orStr es.st._last_hvac_mode HVACMode.HEAT) 3 es

/-! ## Dictionary lemmas -/

theorem alistGet_dictInsert_self {β : Type} (k : String) (v : β) :
    ∀ c : List (String × β), alistGet (dictInsert k v c) k = some v := by
  intro c
  induction c with
  | nil => simp [dictInsert, alistGet]
  | cons kv rest ih =>
    by_cases h : kv.1 = k
    · simp [dictInsert, alistGet, h]
    · simp [dictInsert, alistGet, h, ih]

theorem alistGet_dictInsert_ne {β : Type} {k k' : String} (h : k' ≠ k) (v : β) :
    ∀ c : List (String × β), alistGet (dictInsert k v c) k' = alistGet c k' := by
  intro c
  induction c with
  | nil =>
    simp only [dictInsert, alistGet]
    rw [if_neg (fun hh => h hh.symm)]
  | cons kv rest ih =>
    by_cases hk : kv.1 = k
    · simp only [dictInsert, if_pos hk, alistGet]
      rw [if_neg (fun hh => h (hk ▸ hh).symm), if_neg (fun hh => h (hk ▸ hh).symm)]
    · simp only [dictInsert, if_neg hk, alistGet, ih]

theorem alistGet_fail_all (c : DeviceDict) (k : String) :
    alistGet (_fail_all_devices c) k
      = (alistGet c k).map (fun d => { d with hass_available := false }) := by
  induction c with
  | nil => simp [_fail_all_devices, alistGet]
  | cons kv rest ih =>
    by_cases h : kv.1 = k
    · simp [_fail_all_devices, alistGet, h]
    · simpa [_fail_all_devices, alistGet, h] using ih

theorem mem_dedupKeys : ∀ (l : List String) (seen : List String) (x : String),
    x ∈ dedupKeys seen l ↔ x ∈ l ∧ x ∉ seen := by
  intro l
  induction l with
  | nil => simp [dedupKeys]
  | cons y ys ih =>
    intro seen x
    by_cases hy : y ∈ seen
    · rw [dedupKeys, if_pos hy, ih]
      constructor
      · rintro ⟨hx, hs⟩
        exact ⟨List.mem_cons_of_mem _ hx, hs⟩
      · rintro ⟨hx, hs⟩
        rcases List.mem_cons.mp hx with rfl | hx
        · exact absurd hy hs
        · exact ⟨hx, hs⟩
    · rw [dedupKeys, if_neg hy]
      constructor
      · intro hmem
        rcases List.mem_cons.mp hmem with rfl | hmem
        · exact ⟨List.mem_cons_self _ _, hy⟩
        · obtain ⟨hx, hs⟩ := (ih (y :: seen) x).mp hmem
          exact ⟨List.mem_cons_of_mem _ hx,
            fun hm => hs (List.mem_cons_of_mem _ hm)⟩
      · rintro ⟨hx, hs⟩
        by_cases hxy : x = y
        · exact hxy ▸ List.mem_cons_self _ _
        · rcases List.mem_cons.mp hx with rfl | hx
          · exact absurd rfl hxy
          · refine List.mem_cons_of_mem _ ((ih (y :: seen) x).mpr ⟨hx, ?_⟩)
            intro hm
            rcases List.mem_cons.mp hm with h1 | h1
            · exact hxy h1
            · exact hs h1

theorem nodup_dedupKeys : ∀ (l : List String) (seen : List String),
    (dedupKeys seen l).Nodup := by
  intro l
  induction l with
  | nil => intro seen; simp [dedupKeys]
  | cons y ys ih =>
    intro seen
    by_cases hy : y ∈ seen
    · rw [dedupKeys, if_pos hy]
      exact ih seen
    · rw [dedupKeys, if_neg hy]
      refine List.Nodup.cons ?_ (ih (y :: seen))
      intro hmem
      exact ((mem_dedupKeys ys (y :: seen) y).mp hmem).2 (List.mem_cons_self y seen)

/-! ## Pointwise characterization of the `update` loop -/

/-- The energy payload `_process_api_data` settles on for one device. -/
def energyOf (env : UpdateEnv) (device_id : String) : Option EnergyConsumptionData :=
  if (env.energy_data device_id).success then some (env.energy_data device_id).data else none

/-- The outcome of one `update()` iteration for a device, as a function of
only that device's responses and its prior cache entry: `none` when the
iteration raises an uncaught exception (aborting `update()`), otherwise the
device's new cache entry and its discovered-devices contribution. -/
def deviceStep (env : UpdateEnv) (fw : Option FwMap) (entry : Option EquationDevice)
    (device_id : String) : Option (Option EquationDevice × Option EquationDevice) :=
  let base := env.base_data device_id
  if base.success then
    match latestFwRun env fw device_id with
    | none => none
    | some latest_fw =>
      match base.data.data with
      | none => some (entry, none)
      | some payload =>
        if ¬ payload.isTruthy then some (entry, none)
        else
          match entry with
          | some t =>
            some (some ((if ¬ t.hass_available then { t with hass_available := true }
                else t).update_data base.data (energyOf env device_id) latest_fw), none)
          | none =>
            match payload.type with
            | none => none
            | some device_type =>
              if device_type ∈ EQUATION_SUPPORTED_DEVICES then
                some (some (EquationDevice.fromApi base.data (energyOf env device_id)
                    device_id latest_fw),
                  some (EquationDevice.fromApi base.data (energyOf env device_id)
                    device_id latest_fw))
              else some (none, none)
  else
    some (entry.map (fun t => { t with hass_available := false }), none)

theorem deviceStep_new_id (env : UpdateEnv) (fw : Option FwMap)
    (entry : Option EquationDevice) (device_id : String) :
    ∀ e nd, deviceStep env fw entry device_id = some (e, some nd) → nd.id = device_id := by
  intro e nd h
  unfold deviceStep at h
  by_cases hb : (env.base_data device_id).success
  · rcases hfw : latestFwRun env fw device_id with _ | lfw
    · simp [hb, hfw] at h
    · rcases hpay : (env.base_data device_id).data.data with _ | payload
      · simp [hb, hfw, hpay] at h
      · by_cases htr : payload.isTruthy
        · rcases entry with _ | t
          · rcases hty : payload.type with _ | ty
            · simp [hb, hfw, hpay, htr, hty] at h
            · by_cases hsupp : ty ∈ EQUATION_SUPPORTED_DEVICES
              · simp [hb, hfw, hpay, htr, hty, hsupp] at h
                rw [← h.2]
                rfl
              · simp [hb, hfw, hpay, htr, hty, hsupp] at h
          · simp [hb, hfw, hpay, htr] at h
        · simp [hb, hfw, hpay, htr] at h
  · simp [hb] at h

theorem deviceStep_cached_not_discovered (env : UpdateEnv) (fw : Option FwMap)
    (t : EquationDevice) (device_id : String) :
    ∀ e nd, deviceStep env fw (some t) device_id = some (e, nd) → nd = none := by
  intro e nd h
  unfold deviceStep at h
  by_cases hb : (env.base_data device_id).success
  · rcases hfw : latestFwRun env fw device_id with _ | lfw
    · simp [hb, hfw] at h
    · rcases hpay : (env.base_data device_id).data.data with _ | payload
      · simp [hb, hfw, hpay] at h
        exact h.2.symm
      · by_cases htr : payload.isTruthy
        · simp [hb, hfw, hpay, htr] at h
          exact h.2.symm
        · simp [hb, hfw, hpay, htr] at h
          exact h.2.symm
  · simp [hb] at h
    exact h.2.symm

theorem updateStep_spec (env : UpdateEnv) (fw : Option FwMap) (cache : DeviceDict)
    (device_id : String) :
    match deviceStep env fw (alistGet cache device_id) device_id with
    | none => updateStep env fw cache device_id = none
    | some (e, nd) =>
      ∃ c1, updateStep env fw cache device_id = some (c1, nd)
        ∧ alistGet c1 device_id = e
        ∧ ∀ k, k ≠ device_id → alistGet c1 k = alistGet cache k := by
  by_cases hb : (env.base_data device_id).success
  · rcases hfw : latestFwRun env fw device_id with _ | lfw
    · simp [deviceStep, updateStep, _process_api_data, hb, hfw]
    · rcases hpay : (env.base_data device_id).data.data with _ | payload
      · simp only [deviceStep, updateStep, _process_api_data, _add_or_update_device,
          hb, hfw, hpay, if_true, if_pos rfl]
        exact ⟨cache, rfl, rfl, fun k _ => rfl⟩
      · by_cases htr : payload.isTruthy
        · rcases hget : alistGet cache device_id with _ | target
          · rcases hty : payload.type with _ | ty
            · simp [deviceStep, updateStep, _process_api_data, _add_or_update_device,
                hb, hfw, hpay, htr, hget, hty]
            · by_cases hsupp : ty ∈ EQUATION_SUPPORTED_DEVICES
              · simp only [deviceStep, updateStep, _process_api_data,
                  _add_or_update_device, hb, hfw, hpay, htr, hget, hty, hsupp,
                  not_true_eq_false, if_false, if_true, if_pos rfl, ite_not]
                refine ⟨dictInsert device_id (EquationDevice.fromApi
                  (env.base_data device_id).data (energyOf env device_id) device_id lfw)
                  cache, ?_, ?_, ?_⟩
                · simp [hb, htr, hsupp, energyOf]
                · rw [alistGet_dictInsert_self]
                · intro k hk
                  rw [alistGet_dictInsert_ne hk]
              · simp only [deviceStep, updateStep, _process_api_data,
                  _add_or_update_device, hb, hfw, hpay, htr, hget, hty, hsupp]
                refine ⟨cache, ?_, hget, fun k _ => rfl⟩
                simp [hb, htr, hsupp]
          · simp only [deviceStep, updateStep, _process_api_data, _add_or_update_device,
              hb, hfw, hpay, htr, hget]
            refine ⟨dictInsert device_id ((if ¬ target.hass_available then
              { target with hass_available := true } else target).update_data
              (env.base_data device_id).data (energyOf env device_id) lfw) cache,
              ?_, ?_, ?_⟩
            · simp [hb, htr, energyOf]
            · rw [alistGet_dictInsert_self]
            · intro k hk
              rw [alistGet_dictInsert_ne hk]
        · simp only [deviceStep, updateStep, _process_api_data, _add_or_update_device,
            hb, hfw, hpay, htr]
          refine ⟨cache, ?_, rfl, fun k _ => rfl⟩
          simp [hb, htr]
  · rcases hget : alistGet cache device_id with _ | target
    · simp only [deviceStep, updateStep, _process_api_data, hb, hget]
      refine ⟨cache, ?_, ?_, fun k _ => rfl⟩
      · simp [hb, hget]
      · rw [hget]
        rfl
    · simp only [deviceStep, updateStep, _process_api_data, hb, hget]
      refine ⟨dictInsert device_id { target with hass_available := false } cache,
        ?_, ?_, ?_⟩
      · simp [hb, hget]
      · rw [alistGet_dictInsert_self]
        rfl
      · intro k hk
        rw [alistGet_dictInsert_ne hk]

theorem updateLoop_get (env : UpdateEnv) (fw : Option FwMap) :
    ∀ (ids : List String) (cache cF : DeviceDict)
      (disc : List (String × EquationDevice)), ids.Nodup →
      updateLoop env fw ids cache = some (cF, disc) →
      ∀ device_id,
        (device_id ∈ ids → deviceStep env fw (alistGet cache device_id) device_id
            = some (alistGet cF device_id, alistGet disc device_id))
        ∧ (device_id ∉ ids →
            alistGet cF device_id = alistGet cache device_id
            ∧ alistGet disc device_id = none) := by
  intro ids
  induction ids with
  | nil =>
    intro cache cF disc _ hloop device_id
    simp only [updateLoop, Option.some_inj, Prod.mk.injEq] at hloop
    obtain ⟨h1, h2⟩ := hloop
    subst h1
    subst h2
    exact ⟨fun h => absurd h (List.not_mem_nil _), fun _ => ⟨rfl, rfl⟩⟩
  | cons y ys ih =>
    intro cache cF disc hnd hloop device_id
    obtain ⟨hy_not, hys_nd⟩ := List.nodup_cons.mp hnd
    have hspec := updateStep_spec env fw cache y
    rcases hds : deviceStep env fw (alistGet cache y) y with _ | ⟨e, nd⟩
    · rw [hds] at hspec
      rw [updateLoop, hspec] at hloop
      cases hloop
    · rw [hds] at hspec
      obtain ⟨c1, hstep, hself, hother⟩ := hspec
      simp only [updateLoop, hstep] at hloop
      rcases hrest : updateLoop env fw ys c1 with _ | ⟨cF1, disc1⟩
      · simp only [hrest] at hloop
        cases hloop
      · simp only [hrest, Option.some_inj, Prod.mk.injEq] at hloop
        obtain ⟨hcf, hdisc⟩ := hloop
        subst hcf
        by_cases hid : device_id = y
        · subst hid
          obtain ⟨hc, hd⟩ := (ih c1 cF1 disc1 hys_nd hrest device_id).2 hy_not
          constructor
          · intro _
            rw [hds, hc, hself]
            rcases hnew : nd with _ | ndev
            · rw [← hdisc]
              simp [hnew, hd]
            · have hid_eq : ndev.id = device_id :=
                deviceStep_new_id env fw (alistGet cache device_id) device_id e ndev
                  (hnew ▸ hds)
              rw [← hdisc]
              simp [hnew, alistGet, hid_eq]
          · intro habs
            exact absurd (List.mem_cons_self _ _) habs
        · have hpres : alistGet c1 device_id = alistGet cache device_id :=
            hother device_id hid
          have hdisc_skip : alistGet disc device_id = alistGet disc1 device_id := by
            rw [← hdisc]
            rcases hnew : nd with _ | ndev
            · rfl
            · have hid_eq : ndev.id = y :=
                deviceStep_new_id env fw (alistGet cache y) y e ndev (hnew ▸ hds)
              simp only [alistGet, hid_eq]
              rw [if_neg (fun hh => hid hh.symm)]
          constructor
          · intro hmem
            have hmem2 : device_id ∈ ys := by
              rcases List.mem_cons.mp hmem with h1 | h1
              · exact absurd h1 hid
              · exact h1
            have hc := (ih c1 cF1 disc1 hys_nd hrest device_id).1 hmem2
            rw [hdisc_skip, ← hpres]
            exact hc
          · intro hnm
            have hnm2 : device_id ∉ ys := fun h => hnm (List.mem_cons_of_mem _ h)
            obtain ⟨hc, hd⟩ := (ih c1 cF1 disc1 hys_nd hrest device_id).2 hnm2
            exact ⟨hc.trans hpres, hdisc_skip.trans hd⟩

/-! ## Retry-loop lemmas -/

/-- Index of the first refresh observation (within the next `n`) satisfying
`p`. -/
def firstHit (p : Nat → Bool) : Nat → Option Nat
  | 0 => none
  | n + 1 => if p 0 then some 0 else (firstHit (fun i => p (i + 1)) n).map (· + 1)

theorem firstHit_lt : ∀ (n : Nat) (p : Nat → Bool) (i : Nat),
    firstHit p n = some i → i < n := by
  intro n
  induction n with
  | zero => intro p i h; simp [firstHit] at h
  | succ m ih =>
    intro p i h
    by_cases h0 : p 0
    · simp [firstHit, h0] at h
      omega
    · simp only [firstHit, if_neg h0, Option.map_eq_some'] at h
      obtain ⟨j, hj, rfl⟩ := h
      exact Nat.succ_lt_succ (ih _ j hj)

/-- Whether an event is a `send_command` with the given command string. -/
def isCmdNamed (c : String) : ClimateEvent → Bool
  | ClimateEvent.command cmd _ => cmd == c
  | _ => false

/-- Number of `send_command` events with the given command string. -/
def countCmd (c : String) (tr : List ClimateEvent) : Nat :=
  (tr.filter (isCmdNamed c)).length

@[simp]
theorem countCmd_nil (c : String) : countCmd c [] = 0 := rfl

@[simp]
theorem countCmd_append (c : String) (t1 t2 : List ClimateEvent) :
    countCmd c (t1 ++ t2) = countCmd c t1 + countCmd c t2 := by
  simp [countCmd, List.filter_append]

@[simp]
theorem countCmd_command (c cmd : String) (a : CmdArg) :
    countCmd c [ClimateEvent.command cmd a] = if cmd = c then 1 else 0 := by
  by_cases h : cmd = c
  · simp [countCmd, List.filter, isCmdNamed, h]
  · have hb : (cmd == c) = false := beq_eq_false_iff_ne.mpr h
    simp [countCmd, List.filter, isCmdNamed, hb, h]

@[simp]
theorem countCmd_refresh (c : String) : countCmd c [ClimateEvent.refresh] = 0 := rfl

@[simp]
theorem countCmd_write (c : String) : countCmd c [ClimateEvent.write_state] = 0 := rfl

@[simp]
theorem isCmdNamed_command (c cmd : String) (a : CmdArg) :
    isCmdNamed c (ClimateEvent.command cmd a) = (cmd == c) := rfl

@[simp]
theorem isCmdNamed_refresh (c : String) : isCmdNamed c ClimateEvent.refresh = false := rfl

@[simp]
theorem isCmdNamed_write (c : String) : isCmdNamed c ClimateEvent.write_state = false := rfl

@[simp]
theorem countCmd_cons (c : String) (e : ClimateEvent) (tr : List ClimateEvent) :
    countCmd c (e :: tr) = (if isCmdNamed c e then 1 else 0) + countCmd c tr := by
  simp only [countCmd, List.filter]
  cases h : isCmdNamed c e
  · simp
  · simp [Nat.add_comm]

/-- The power the coordinator reports at the `i`-th refresh from position
`r` of the refresh sequence. -/
def powerObs (env : ClimateEnv) (r i : Nat) : Bool :=
  (env.refresh_device (r + i)).power

theorem powerObs_succ (env : ClimateEnv) (r i : Nat) :
    powerObs env (r + 1) i = powerObs env r (i + 1) := by
  simp [powerObs, Nat.add_assoc, Nat.add_comm 1 i]

@[simp]
theorem doSendCommand_st_radiator (env : ClimateEnv) (es : ExecState) (cmd : String) (a : CmdArg) :
    (doSendCommand env es cmd a).1.st.radiator
      = (send_command (env.api_success es.apiIdx) es.st.radiator cmd a).device := rfl

@[simp]
theorem doSendCommand_st_lastH (env : ClimateEnv) (es : ExecState) (cmd : String) (a : CmdArg) :
    (doSendCommand env es cmd a).1.st._last_hvac_mode = es.st._last_hvac_mode := rfl

@[simp]
theorem doSendCommand_st_lastT (env : ClimateEnv) (es : ExecState) (cmd : String) (a : CmdArg) :
    (doSendCommand env es cmd a).1.st._last_target_temperature
      = es.st._last_target_temperature := rfl

@[simp]
theorem doSendCommand_st_lastP (env : ClimateEnv) (es : ExecState) (cmd : String) (a : CmdArg) :
    (doSendCommand env es cmd a).1.st._last_preset_mode = es.st._last_preset_mode := rfl

@[simp]
theorem doSendCommand_apiIdx (env : ClimateEnv) (es : ExecState) (cmd : String) (a : CmdArg) :
    (doSendCommand env es cmd a).1.apiIdx = es.apiIdx + 1 := rfl

@[simp]
theorem doSendCommand_refreshIdx (env : ClimateEnv) (es : ExecState) (cmd : String) (a : CmdArg) :
    (doSendCommand env es cmd a).1.refreshIdx = es.refreshIdx := rfl

@[simp]
theorem doSendCommand_trace (env : ClimateEnv) (es : ExecState) (cmd : String) (a : CmdArg) :
    (doSendCommand env es cmd a).1.trace = es.trace ++ [ClimateEvent.command cmd a] := rfl

@[simp]
theorem doSendCommand_ok (env : ClimateEnv) (es : ExecState) (cmd : String) (a : CmdArg) :
    (doSendCommand env es cmd a).2
      = (send_command (env.api_success es.apiIdx) es.st.radiator cmd a).ok := rfl

@[simp]
theorem doRefresh_st_radiator (env : ClimateEnv) (es : ExecState) :
    (doRefresh env es).st.radiator = env.refresh_device es.refreshIdx := rfl

@[simp]
theorem doRefresh_st_lastH (env : ClimateEnv) (es : ExecState) :
    (doRefresh env es).st._last_hvac_mode = es.st._last_hvac_mode := rfl

@[simp]
theorem doRefresh_st_lastT (env : ClimateEnv) (es : ExecState) :
    (doRefresh env es).st._last_target_temperature = es.st._last_target_temperature := rfl

@[simp]
theorem doRefresh_st_lastP (env : ClimateEnv) (es : ExecState) :
    (doRefresh env es).st._last_preset_mode = es.st._last_preset_mode := rfl

@[simp]
theorem doRefresh_apiIdx (env : ClimateEnv) (es : ExecState) :
    (doRefresh env es).apiIdx = es.apiIdx := rfl

@[simp]
theorem doRefresh_refreshIdx (env : ClimateEnv) (es : ExecState) :
    (doRefresh env es).refreshIdx = es.refreshIdx + 1 := rfl

@[simp]
theorem doRefresh_trace (env : ClimateEnv) (es : ExecState) :
    (doRefresh env es).trace = es.trace ++ [ClimateEvent.refresh] := rfl

@[simp]
theorem doWrite_st (es : ExecState) : (doWrite es).st = es.st := rfl

@[simp]
theorem doWrite_apiIdx (es : ExecState) : (doWrite es).apiIdx = es.apiIdx := rfl

@[simp]
theorem doWrite_refreshIdx (es : ExecState) : (doWrite es).refreshIdx = es.refreshIdx := rfl

@[simp]
theorem doWrite_trace (es : ExecState) :
    (doWrite es).trace = es.trace ++ [ClimateEvent.write_state] := rfl

@[simp]
theorem send_command_preset_ok (s : Bool) (d : EquationDevice) (a : CmdArg) :
    (send_command s d CMD_SET_PRESET a).ok = s := by
  cases s <;> simp [send_command, _set_device_preset, CMD_SET_PRESET, CMD_SET_TEMP]

@[simp]
theorem send_command_temp_ok (s : Bool) (d : EquationDevice) (a : CmdArg) :
    (send_command s d CMD_SET_TEMP a).ok = s := by
  cases s <;> simp [send_command, _set_device_temp, CMD_SET_TEMP]

theorem turnOffGo_last (env : ClimateEnv) : ∀ (n : Nat) (es : ExecState),
    (turnOffGo env n es).1.st._last_hvac_mode = es.st._last_hvac_mode
      ∧ (turnOffGo env n es).1.st._last_target_temperature = es.st._last_target_temperature
      ∧ (turnOffGo env n es).1.st._last_preset_mode = es.st._last_preset_mode := by
  intro n
  induction n with
  | zero => intro es; exact ⟨rfl, rfl, rfl⟩
  | succ m ih =>
    intro es
    by_cases hp : (env.refresh_device es.refreshIdx).power
    · simp only [turnOffGo]
      rw [if_pos (by simpa using hp)]
      exact ⟨((ih _).1.trans (by simp)), ((ih _).2.1.trans (by simp)), ((ih _).2.2.trans (by simp))⟩
    · simp only [turnOffGo]
      rw [if_neg (by simpa using hp)]
      simp

theorem turnOffGo_outcome (env : ClimateEnv) : ∀ (n : Nat) (es : ExecState),
    (turnOffGo env n es).2 =
      match firstHit (fun i => !(powerObs env es.refreshIdx i)) n with
      | some _ => Outcome.ok
      | none => Outcome.error "Failed to turn off radiator" := by
  intro n
  induction n with
  | zero => intro es; rfl
  | succ m ih =>
    intro es
    by_cases hp : (env.refresh_device es.refreshIdx).power
    · have hp0 : (!(powerObs env es.refreshIdx 0)) = false := by
        simp [powerObs, hp]
      have hfun : (fun i => !(powerObs env (es.refreshIdx + 1) i))
          = (fun i => !(powerObs env es.refreshIdx (i + 1))) := by
        funext i
        rw [powerObs_succ]
      simp only [turnOffGo]
      rw [if_pos (by simpa using hp)]
      rw [ih]
      simp only [doRefresh_refreshIdx, doSendCommand_refreshIdx, hfun]
      rw [firstHit]
      simp only [hp0]
      cases hx : firstHit (fun i => !(powerObs env es.refreshIdx (i + 1))) m <;> simp [hx]
    · have hp0 : (!(powerObs env es.refreshIdx 0)) = true := by
        simp [powerObs, hp]
      simp only [turnOffGo]
      rw [if_neg (by simpa using hp)]
      rw [firstHit]
      simp only [hp0]
      simp

theorem turnOffGo_count (env : ClimateEnv) : ∀ (n : Nat) (es : ExecState),
    countCmd CMD_SET_HVAC_MODE (turnOffGo env n es).1.trace =
      countCmd CMD_SET_HVAC_MODE es.trace +
        match firstHit (fun i => !(powerObs env es.refreshIdx i)) n with
        | some i => i + 1
        | none => n := by
  intro n
  induction n with
  | zero => intro es; simp [turnOffGo, firstHit]
  | succ m ih =>
    intro es
    by_cases hp : (env.refresh_device es.refreshIdx).power
    · have hp0 : (!(powerObs env es.refreshIdx 0)) = false := by
        simp [powerObs, hp]
      have hfun : (fun i => !(powerObs env (es.refreshIdx + 1) i))
          = (fun i => !(powerObs env es.refreshIdx (i + 1))) := by
        funext i
        rw [powerObs_succ]
      simp only [turnOffGo]
      rw [if_pos (by simpa using hp)]
      rw [ih]
      simp only [doRefresh_refreshIdx, doSendCommand_refreshIdx, doRefresh_trace,
        doSendCommand_trace, countCmd_append, hfun]
      rw [firstHit]
      simp only [hp0]
      cases hx : firstHit (fun i => !(powerObs env es.refreshIdx (i + 1))) m
      · simp only [hx]
        simp [CMD_SET_HVAC_MODE]
        exact (Nat.add_right_comm _ 1 _).trans (Nat.add_assoc _ _ _)
      · simp only [hx]
        simp [CMD_SET_HVAC_MODE]
        exact (Nat.add_right_comm _ 1 _).trans (Nat.add_assoc _ _ _)
    · have hp0 : (!(powerObs env es.refreshIdx 0)) = true := by
        simp [powerObs, hp]
      simp only [turnOffGo]
      rw [if_neg (by simpa using hp)]
      rw [firstHit]
      simp only [hp0]
      simp [CMD_SET_HVAC_MODE]

theorem async_set_preset_mode_outcome (env : ClimateEnv) (es : ExecState) (p : String) :
    (async_set_preset_mode env es p).2 =
      if env.api_success es.apiIdx then Outcome.ok
      else Outcome.error "Failed to set preset mode" := by
  by_cases h : env.api_success es.apiIdx <;> simp [async_set_preset_mode, h]

theorem async_set_temperature_outcome (env : ClimateEnv) (es : ExecState) (t : ℚ) :
    (async_set_temperature env es t).2 =
      if env.api_success es.apiIdx then Outcome.ok
      else Outcome.error "Failed to set temperature" := by
  by_cases h : env.api_success es.apiIdx <;> simp [async_set_temperature, h]

theorem async_set_preset_mode_trace_mem (env : ClimateEnv) (es : ExecState) (p : String) :
    ClimateEvent.command CMD_SET_PRESET (CmdArg.str p)
      ∈ (async_set_preset_mode env es p).1.trace := by
  by_cases h : env.api_success es.apiIdx <;> simp [async_set_preset_mode, h]

theorem async_set_temperature_trace_mem (env : ClimateEnv) (es : ExecState) (t : ℚ) :
    ClimateEvent.command CMD_SET_TEMP (CmdArg.num t)
      ∈ (async_set_temperature env es t).1.trace := by
  by_cases h : env.api_success es.apiIdx <;> simp [async_set_temperature, h]

theorem add_one_shift (a j : Nat) : a + 1 + j + 1 = a + (j + 1) + 1 := by ring

theorem turnOnGo_outcome (env : ClimateEnv) (hvac : String) : ∀ (n : Nat) (es : ExecState),
    (turnOnGo env hvac n es).2 =
      match firstHit (fun i => powerObs env es.refreshIdx i) n with
      | none => Outcome.error "Failed to turn on radiator"
      | some i =>
        if pyTruthyStr es.st._last_preset_mode then
          (if env.api_success (es.apiIdx + i + 1) then Outcome.ok
           else Outcome.error "Failed to set preset mode")
        else
          match es.st._last_target_temperature with
          | some _ =>
            (if env.api_success (es.apiIdx + i + 1) then Outcome.ok
             else Outcome.error "Failed to set temperature")
          | none => Outcome.ok := by
  intro n
  induction n with
  | zero => intro es; rfl
  | succ m ih =>
    intro es
    by_cases hp : (env.refresh_device es.refreshIdx).power
    · have hp0 : powerObs env es.refreshIdx 0 = true := by
        simp [powerObs, hp]
      rw [firstHit]
      simp only [hp0, if_pos rfl]
      simp only [turnOnGo]
      rw [if_pos (by simpa using hp)]
      by_cases ht : pyTruthyStr es.st._last_preset_mode
      · simp only [doRefresh_st_lastP, doSendCommand_st_lastP, ht, if_pos rfl]
        set_option linter.unnecessarySimpa false in
        rw [if_pos (by simpa using ht)]
        simp only [async_set_preset_mode_outcome, doRefresh_apiIdx, doSendCommand_apiIdx]
        by_cases ha : env.api_success (es.apiIdx + 1)
        · simp [ha]
        · simp [ha]
      · have htb : pyTruthyStr es.st._last_preset_mode = false := by
          simpa using ht
        simp only [doRefresh_st_lastP, doSendCommand_st_lastP, htb, Bool.false_eq_true,
          if_false]
        rcases hT : es.st._last_target_temperature with _ | t
        · simp only [doRefresh_st_lastT, doSendCommand_st_lastT, hT]
          simp
        · simp only [doRefresh_st_lastT, doSendCommand_st_lastT, hT]
          simp only [async_set_temperature_outcome, doRefresh_apiIdx, doSendCommand_apiIdx]
          by_cases ha : env.api_success (es.apiIdx + 1)
          · simp [ha]
          · simp [ha]
    · have hp0 : powerObs env es.refreshIdx 0 = false := by
        simp [powerObs, hp]
      have hfun : (fun i => powerObs env (es.refreshIdx + 1) i)
          = (fun i => powerObs env es.refreshIdx (i + 1)) := by
        funext i
        rw [powerObs_succ]
      simp only [turnOnGo]
      rw [if_neg (by simpa using hp)]
      rw [ih]
      simp only [doRefresh_refreshIdx, doSendCommand_refreshIdx, doRefresh_apiIdx,
        doSendCommand_apiIdx, doRefresh_st_lastP, doSendCommand_st_lastP,
        doRefresh_st_lastT, doSendCommand_st_lastT, hfun]
      rw [firstHit]
      simp only [hp0, Bool.false_eq_true, if_false]
      cases hx : firstHit (fun i => powerObs env es.refreshIdx (i + 1)) m
      · simp [hx]
      · rename_i j
        simp only [hx, Option.map_some']
        simp only [add_one_shift]

theorem async_set_preset_mode_countHvac (env : ClimateEnv) (es : ExecState) (p : String) :
    countCmd CMD_SET_HVAC_MODE (async_set_preset_mode env es p).1.trace
      = countCmd CMD_SET_HVAC_MODE es.trace := by
  by_cases h : env.api_success es.apiIdx <;>
    · simp [async_set_preset_mode, h]
      simp [CMD_SET_HVAC_MODE, CMD_SET_PRESET]

theorem async_set_temperature_countHvac (env : ClimateEnv) (es : ExecState) (t : ℚ) :
    countCmd CMD_SET_HVAC_MODE (async_set_temperature env es t).1.trace
      = countCmd CMD_SET_HVAC_MODE es.trace := by
  by_cases h : env.api_success es.apiIdx <;>
    · simp [async_set_temperature, h]
      simp [CMD_SET_HVAC_MODE, CMD_SET_TEMP]

theorem turnOnGo_count (env : ClimateEnv) (hvac : String) : ∀ (n : Nat) (es : ExecState),
    countCmd CMD_SET_HVAC_MODE (turnOnGo env hvac n es).1.trace =
      countCmd CMD_SET_HVAC_MODE es.trace +
        match firstHit (fun i => powerObs env es.refreshIdx i) n with
        | some i => i + 1
        | none => n := by
  intro n
  induction n with
  | zero => intro es; simp [turnOnGo, firstHit]
  | succ m ih =>
    intro es
    by_cases hp : (env.refresh_device es.refreshIdx).power
    · have hp0 : powerObs env es.refreshIdx 0 = true := by
        simp [powerObs, hp]
      rw [firstHit]
      simp only [hp0, if_pos rfl]
      simp only [turnOnGo]
      rw [if_pos (by simpa using hp)]
      by_cases ht : pyTruthyStr es.st._last_preset_mode
      · have htb : pyTruthyStr es.st._last_preset_mode = true := by simpa using ht
        simp only [doRefresh_st_lastP, doSendCommand_st_lastP, htb, if_true]
        simp only [async_set_preset_mode_outcome, doRefresh_apiIdx, doSendCommand_apiIdx]
        by_cases ha : env.api_success (es.apiIdx + 1)
        · simp only [ha, if_true]
          simp only [doWrite_trace, countCmd_append]
          rw [async_set_preset_mode_countHvac]
          simp only [doRefresh_trace, doSendCommand_trace, countCmd_append]
          simp [CMD_SET_HVAC_MODE]
        · have hb : env.api_success (es.apiIdx + 1) = false := by simpa using ha
          simp only [hb, Bool.false_eq_true, if_false]
          rw [async_set_preset_mode_countHvac]
          simp only [doRefresh_trace, doSendCommand_trace, countCmd_append]
          simp [CMD_SET_HVAC_MODE]
      · have htb : pyTruthyStr es.st._last_preset_mode = false := by simpa using ht
        simp only [doRefresh_st_lastP, doSendCommand_st_lastP, htb, Bool.false_eq_true,
          if_false]
        rcases hT : es.st._last_target_temperature with _ | t
        · simp only [doRefresh_st_lastT, doSendCommand_st_lastT, hT]
          simp [CMD_SET_HVAC_MODE]
        · simp only [doRefresh_st_lastT, doSendCommand_st_lastT, hT]
          simp only [async_set_temperature_outcome, doRefresh_apiIdx, doSendCommand_apiIdx]
          by_cases ha : env.api_success (es.apiIdx + 1)
          · simp only [ha, if_true]
            simp only [doWrite_trace, countCmd_append]
            rw [async_set_temperature_countHvac]
            simp only [doRefresh_trace, doSendCommand_trace, countCmd_append]
            simp [CMD_SET_HVAC_MODE]
          · have hb : env.api_success (es.apiIdx + 1) = false := by simpa using ha
            simp only [hb, Bool.false_eq_true, if_false]
            rw [async_set_temperature_countHvac]
            simp only [doRefresh_trace, doSendCommand_trace, countCmd_append]
            simp [CMD_SET_HVAC_MODE]
    · have hp0 : powerObs env es.refreshIdx 0 = false := by
        simp [powerObs, hp]
      have hfun : (fun i => powerObs env (es.refreshIdx + 1) i)
          = (fun i => powerObs env es.refreshIdx (i + 1)) := by
        funext i
        rw [powerObs_succ]
      simp only [turnOnGo]
      rw [if_neg (by simpa using hp)]
      rw [ih]
      simp only [doRefresh_refreshIdx, doSendCommand_refreshIdx, doRefresh_trace,
        doSendCommand_trace, countCmd_append, hfun]
      rw [firstHit]
      simp only [hp0, Bool.false_eq_true, if_false]
      cases hx : firstHit (fun i => powerObs env es.refreshIdx (i + 1)) m
      · simp only [hx]
        simp [CMD_SET_HVAC_MODE]
        exact (Nat.add_right_comm _ 1 _).trans (Nat.add_assoc _ _ _)
      · simp only [hx]
        simp [CMD_SET_HVAC_MODE]
        exact (Nat.add_right_comm _ 1 _).trans (Nat.add_assoc _ _ _)

/-- Every HVAC-mode command in the trace carries the given mode string. -/
def hvacArgsOnly (hvac : String) (tr : List ClimateEvent) : Prop :=
  ∀ a, ClimateEvent.command CMD_SET_HVAC_MODE a ∈ tr → a = CmdArg.str hvac

/-- Every command in the trace is an HVAC-mode command. -/
def onlyHvacCmds (tr : List ClimateEvent) : Prop :=
  ∀ c a, ClimateEvent.command c a ∈ tr → c = CMD_SET_HVAC_MODE

theorem hvacArgsOnly_append {hvac : String} {t1 t2 : List ClimateEvent}
    (h1 : hvacArgsOnly hvac t1) (h2 : hvacArgsOnly hvac t2) :
    hvacArgsOnly hvac (t1 ++ t2) := by
  intro a hm
  rcases List.mem_append.mp hm with hm | hm
  · exact h1 a hm
  · exact h2 a hm

theorem hvacArgsOnly_self (hvac : String) :
    hvacArgsOnly hvac [ClimateEvent.command CMD_SET_HVAC_MODE (CmdArg.str hvac)] := by
  intro a hm
  have h := List.mem_singleton.mp hm
  injection h with h1 h2

theorem hvacArgsOnly_other {hvac c : String} (a0 : CmdArg)
    (h : c ≠ CMD_SET_HVAC_MODE) :
    hvacArgsOnly hvac [ClimateEvent.command c a0] := by
  intro a hm
  rcases List.mem_singleton.mp hm with heq
  injection heq with h1 h2
  exact absurd h1.symm h

theorem hvacArgsOnly_refresh (hvac : String) :
    hvacArgsOnly hvac [ClimateEvent.refresh] := by
  intro a hm
  rcases List.mem_singleton.mp hm with heq
  cases heq

theorem hvacArgsOnly_write (hvac : String) :
    hvacArgsOnly hvac [ClimateEvent.write_state] := by
  intro a hm
  rcases List.mem_singleton.mp hm with heq
  cases heq

theorem async_set_preset_mode_hvacArgs (env : ClimateEnv) (es : ExecState) (p hvac : String)
    (h : hvacArgsOnly hvac es.trace) :
    hvacArgsOnly hvac (async_set_preset_mode env es p).1.trace := by
  have hpre : (CMD_SET_PRESET : String) ≠ CMD_SET_HVAC_MODE := by
    simp [CMD_SET_PRESET, CMD_SET_HVAC_MODE]
  by_cases hs : env.api_success es.apiIdx
  · simp only [async_set_preset_mode, doSendCommand_ok, send_command_preset_ok, hs, if_true,
      doWrite_trace, doRefresh_trace, doSendCommand_trace]
    exact hvacArgsOnly_append (hvacArgsOnly_append (hvacArgsOnly_append h
      (hvacArgsOnly_other _ hpre)) (hvacArgsOnly_refresh hvac)) (hvacArgsOnly_write hvac)
  · have hb : env.api_success es.apiIdx = false := by simpa using hs
    simp only [async_set_preset_mode, doSendCommand_ok, send_command_preset_ok, hb,
      Bool.false_eq_true, if_false, doSendCommand_trace]
    exact hvacArgsOnly_append h (hvacArgsOnly_other _ hpre)

theorem async_set_temperature_hvacArgs (env : ClimateEnv) (es : ExecState) (t : ℚ)
    (hvac : String) (h : hvacArgsOnly hvac es.trace) :
    hvacArgsOnly hvac (async_set_temperature env es t).1.trace := by
  have hpre : (CMD_SET_TEMP : String) ≠ CMD_SET_HVAC_MODE := by
    simp [CMD_SET_TEMP, CMD_SET_HVAC_MODE]
  by_cases hs : env.api_success es.apiIdx
  · simp only [async_set_temperature, doSendCommand_ok, send_command_temp_ok, hs, if_true,
      doWrite_trace, doRefresh_trace, doSendCommand_trace]
    exact hvacArgsOnly_append (hvacArgsOnly_append (hvacArgsOnly_append h
      (hvacArgsOnly_other _ hpre)) (hvacArgsOnly_refresh hvac)) (hvacArgsOnly_write hvac)
  · have hb : env.api_success es.apiIdx = false := by simpa using hs
    simp only [async_set_temperature, doSendCommand_ok, send_command_temp_ok, hb,
      Bool.false_eq_true, if_false, doSendCommand_trace]
    exact hvacArgsOnly_append h (hvacArgsOnly_other _ hpre)

theorem turnOnGo_hvacArgs (env : ClimateEnv) (hvac : String) : ∀ (n : Nat) (es : ExecState),
    hvacArgsOnly hvac es.trace →
    hvacArgsOnly hvac (turnOnGo env hvac n es).1.trace := by
  intro n
  induction n with
  | zero => intro es h; exact h
  | succ m ih =>
    intro es h
    have hstep : hvacArgsOnly hvac
        (doRefresh env (doSendCommand env es CMD_SET_HVAC_MODE (CmdArg.str hvac)).1).trace := by
      simp only [doRefresh_trace, doSendCommand_trace]
      exact hvacArgsOnly_append (hvacArgsOnly_append h (hvacArgsOnly_self hvac))
        (hvacArgsOnly_refresh hvac)
    simp only [turnOnGo]
    by_cases hp : (env.refresh_device es.refreshIdx).power
    · rw [if_pos (by simpa using hp)]
      by_cases ht : pyTruthyStr es.st._last_preset_mode
      · simp only [doRefresh_st_lastP, doSendCommand_st_lastP, ht, if_pos rfl]
        rcases ho : (async_set_preset_mode env
            (doRefresh env (doSendCommand env es CMD_SET_HVAC_MODE (CmdArg.str hvac)).1)
            (es.st._last_preset_mode.getD "")).2 with _ | msg
        · simp only [ho, doWrite_trace]
          exact hvacArgsOnly_append
            (async_set_preset_mode_hvacArgs env _ _ hvac hstep) (hvacArgsOnly_write hvac)
        · simp only [ho]
          exact async_set_preset_mode_hvacArgs env _ _ hvac hstep
      · have htb : pyTruthyStr es.st._last_preset_mode = false := by simpa using ht
        simp only [doRefresh_st_lastP, doSendCommand_st_lastP, htb, Bool.false_eq_true,
          if_false]
        rcases hT : es.st._last_target_temperature with _ | t
        · simp only [doRefresh_st_lastT, doSendCommand_st_lastT, hT, doWrite_trace]
          exact hvacArgsOnly_append hstep (hvacArgsOnly_write hvac)
        · simp only [doRefresh_st_lastT, doSendCommand_st_lastT, hT]
          rcases ho : (async_set_temperature env
              (doRefresh env (doSendCommand env es CMD_SET_HVAC_MODE (CmdArg.str hvac)).1)
              t).2 with _ | msg
          · simp only [ho, doWrite_trace]
            exact hvacArgsOnly_append
              (async_set_temperature_hvacArgs env _ t hvac hstep) (hvacArgsOnly_write hvac)
          · simp only [ho]
            exact async_set_temperature_hvacArgs env _ t hvac hstep
    · rw [if_neg (by simpa using hp)]
      exact ih _ hstep

theorem turnOnGo_reapplies (env : ClimateEnv) (hvac : String) : ∀ (n : Nat) (es : ExecState),
    (firstHit (fun i => powerObs env es.refreshIdx i) n).isSome = true →
    (pyTruthyStr es.st._last_preset_mode = true →
      ClimateEvent.command CMD_SET_PRESET (CmdArg.str (es.st._last_preset_mode.getD ""))
        ∈ (turnOnGo env hvac n es).1.trace)
    ∧ (pyTruthyStr es.st._last_preset_mode = false →
      ∀ t, es.st._last_target_temperature = some t →
        ClimateEvent.command CMD_SET_TEMP (CmdArg.num t)
          ∈ (turnOnGo env hvac n es).1.trace) := by
  intro n
  induction n with
  | zero => intro es h; cases h
  | succ m ih =>
    intro es hsome
    simp only [turnOnGo]
    by_cases hp : (env.refresh_device es.refreshIdx).power
    · rw [if_pos (by simpa using hp)]
      constructor
      · intro ht
        simp only [doRefresh_st_lastP, doSendCommand_st_lastP, ht, if_pos rfl]
        rcases ho : (async_set_preset_mode env
            (doRefresh env (doSendCommand env es CMD_SET_HVAC_MODE (CmdArg.str hvac)).1)
            (es.st._last_preset_mode.getD "")).2 with _ | msg
        · simp only [ho, doWrite_trace]
          exact List.mem_append.mpr (Or.inl
            (async_set_preset_mode_trace_mem env _ (es.st._last_preset_mode.getD "")))
        · simp only [ho]
          exact async_set_preset_mode_trace_mem env _ (es.st._last_preset_mode.getD "")
      · intro ht t hT
        simp only [doRefresh_st_lastP, doSendCommand_st_lastP, ht, Bool.false_eq_true,
          if_false, doRefresh_st_lastT, doSendCommand_st_lastT, hT]
        rcases ho : (async_set_temperature env
            (doRefresh env (doSendCommand env es CMD_SET_HVAC_MODE (CmdArg.str hvac)).1)
            t).2 with _ | msg
        · simp only [ho, doWrite_trace]
          exact List.mem_append.mpr (Or.inl (async_set_temperature_trace_mem env _ t))
        · simp only [ho]
          exact async_set_temperature_trace_mem env _ t
    · rw [if_neg (by simpa using hp)]
      have hp0 : powerObs env es.refreshIdx 0 = false := by
        simp [powerObs, hp]
      have hfun : (fun i => powerObs env (es.refreshIdx + 1) i)
          = (fun i => powerObs env es.refreshIdx (i + 1)) := by
        funext i
        rw [powerObs_succ]
      have hsome' : (firstHit (fun i => powerObs env
          (doRefresh env (doSendCommand env es CMD_SET_HVAC_MODE
            (CmdArg.str hvac)).1).refreshIdx i) m).isSome = true := by
        rw [firstHit] at hsome
        simp only [hp0, Bool.false_eq_true, if_false, Option.isSome_map'] at hsome
        simp only [doRefresh_refreshIdx, doSendCommand_refreshIdx, hfun]
        exact hsome
      have := ih _ hsome'
      simpa using this

theorem onlyHvacCmds_append {t1 t2 : List ClimateEvent}
    (h1 : onlyHvacCmds t1) (h2 : onlyHvacCmds t2) : onlyHvacCmds (t1 ++ t2) := by
  intro c a hm
  rcases List.mem_append.mp hm with hm | hm
  · exact h1 c a hm
  · exact h2 c a hm

theorem onlyHvacCmds_hvac (a0 : CmdArg) :
    onlyHvacCmds [ClimateEvent.command CMD_SET_HVAC_MODE a0] := by
  intro c a hm
  have h := List.mem_singleton.mp hm
  injection h with h1 h2

theorem onlyHvacCmds_refresh : onlyHvacCmds [ClimateEvent.refresh] := by
  intro c a hm
  have h := List.mem_singleton.mp hm
  cases h

theorem onlyHvacCmds_write : onlyHvacCmds [ClimateEvent.write_state] := by
  intro c a hm
  have h := List.mem_singleton.mp hm
  cases h

theorem turnOnGo_onlyHvac (env : ClimateEnv) (hvac : String) : ∀ (n : Nat) (es : ExecState),
    pyTruthyStr es.st._last_preset_mode = false →
    es.st._last_target_temperature = none →
    onlyHvacCmds es.trace →
    onlyHvacCmds (turnOnGo env hvac n es).1.trace := by
  intro n
  induction n with
  | zero => intro es _ _ h; exact h
  | succ m ih =>
    intro es ht hT h
    have hstep : onlyHvacCmds
        (doRefresh env (doSendCommand env es CMD_SET_HVAC_MODE (CmdArg.str hvac)).1).trace := by
      simp only [doRefresh_trace, doSendCommand_trace]
      exact onlyHvacCmds_append (onlyHvacCmds_append h (onlyHvacCmds_hvac _))
        onlyHvacCmds_refresh
    simp only [turnOnGo]
    by_cases hp : (env.refresh_device es.refreshIdx).power
    · rw [if_pos (by simpa using hp)]
      simp only [doRefresh_st_lastP, doSendCommand_st_lastP, ht, Bool.false_eq_true,
        if_false, doRefresh_st_lastT, doSendCommand_st_lastT, hT, doWrite_trace]
      exact onlyHvacCmds_append hstep onlyHvacCmds_write
    · rw [if_neg (by simpa using hp)]
      exact ih _ (by simpa using ht) (by simpa using hT) hstep

/-! ## Claim theorems -/

/-- A sample radiator used by concrete witnesses. -/
def sampleDevice : EquationDevice :=
  { id := "rad1"
    name := "Living room"
    power := true
    mode := "manual"
    preset := "none"
    temp := 19
    comfort_temp := 21
    eco_temp := 17
    ice_temp := 7
    temp_probe := 18
    ice_mode := false
    schedule_mode := ScheduleMode.other
    hass_available := true
    sdk_data := none
    sdk_energy := none
    sdk_latest_fw := none }

theorem _set_device_mode_calls (s : Bool) (d : EquationDevice) (m : String) :
    (_set_device_mode s d m).calls = [ApiCall.set_device_mode d.id m] := by
  unfold _set_device_mode
  split_ifs <;> rfl

theorem _set_device_preset_calls (s : Bool) (d : EquationDevice) (p : String) :
    ∃ q, (_set_device_preset s d p).calls = [ApiCall.set_device_preset d.id q] := by
  unfold _set_device_preset
  split_ifs <;> exact ⟨_, rfl⟩

theorem _set_device_temp_calls (s : Bool) (d : EquationDevice) (t : ℚ) :
    (_set_device_temp s d t).calls = [ApiCall.set_device_temp d.id t] := by
  unfold _set_device_temp
  split_ifs <;> rfl

/-- C3: `send_command` maps `CMD_SET_TEMP` to exactly one `set_device_temp`
vendor call, `CMD_SET_PRESET` to exactly one `set_device_preset` call,
`CMD_SET_HVAC_MODE` to exactly one `set_device_mode` call, and returns
`False` for any other command string, making no vendor call and leaving the
device state untouched. -/
theorem c3_send_command_dispatch (s : Bool) (d : EquationDevice) (arg : CmdArg) :
    ((send_command s d CMD_SET_TEMP arg).calls = [ApiCall.set_device_temp d.id arg.toRat])
    ∧ (∃ q, (send_command s d CMD_SET_PRESET arg).calls
        = [ApiCall.set_device_preset d.id q])
    ∧ ((send_command s d CMD_SET_HVAC_MODE arg).calls
        = [ApiCall.set_device_mode d.id arg.toStr])
    ∧ (∀ cmd, cmd ≠ CMD_SET_TEMP → cmd ≠ CMD_SET_PRESET → cmd ≠ CMD_SET_HVAC_MODE →
        send_command s d cmd arg = ⟨d, false, []⟩) := by
  refine ⟨?_, ?_, ?_, ?_⟩
  · rw [send_command, if_pos rfl]
    exact _set_device_temp_calls s d arg.toRat
  · rw [send_command, if_neg (by simp [CMD_SET_PRESET, CMD_SET_TEMP]), if_pos rfl]
    exact _set_device_preset_calls s d arg.toStr
  · rw [send_command, if_neg (by simp [CMD_SET_HVAC_MODE, CMD_SET_TEMP]),
      if_neg (by simp [CMD_SET_HVAC_MODE, CMD_SET_PRESET]), if_pos rfl]
    exact _set_device_mode_calls s d arg.toStr
  · intro cmd h1 h2 h3
    rw [send_command, if_neg h1, if_neg h2, if_neg h3]

/-- C3 witness: the unsupported legacy command string `CMD_HVAC_OFF` returns
`False` with no vendor call and no state change. -/
theorem c3_witness :
    send_command true sampleDevice CMD_HVAC_OFF (CmdArg.num 5)
      = ⟨sampleDevice, false, []⟩ :=
  (c3_send_command_dispatch true sampleDevice (CmdArg.num 5)).2.2.2 CMD_HVAC_OFF
    (by decide) (by decide) (by decide)

/-- C4: after a successful `set_device_temp` vendor call, the mirrored state
has `temp` equal to the request, `mode` manual, `power` on, and `preset`
decided by comparing the new temperature with comfort, eco and ice
temperatures in that order; the function returns `True`. -/
theorem c4_set_temp_success (d : EquationDevice) (t : ℚ) :
    (_set_device_temp true d t).ok = true
    ∧ (_set_device_temp true d t).device.temp = t
    ∧ (_set_device_temp true d t).device.mode = RADIATOR_MODE_MANUAL
    ∧ (_set_device_temp true d t).device.power = true
    ∧ (_set_device_temp true d t).device.preset =
        (if t = d.comfort_temp then RADIATOR_PRESET_COMFORT
         else if t = d.eco_temp then RADIATOR_PRESET_ECO
         else if t = d.ice_temp then RADIATOR_PRESET_ICE
         else RADIATOR_PRESET_NONE) := by
  refine ⟨rfl, rfl, rfl, rfl, ?_⟩
  simp only [_set_device_temp]
  norm_num

/-- C5: when the vendor call fails, each of `_set_device_temp`,
`_set_device_mode` and `_set_device_preset` returns `False`, marks the
device unavailable, and leaves `temp`, `mode`, `power` and `preset`
untouched. -/
theorem c5_failure_atomic (d : EquationDevice) (t : ℚ) (m p : String) :
    ((_set_device_temp false d t).ok = false
      ∧ (_set_device_temp false d t).device.hass_available = false
      ∧ (_set_device_temp false d t).device.temp = d.temp
      ∧ (_set_device_temp false d t).device.mode = d.mode
      ∧ (_set_device_temp false d t).device.power = d.power
      ∧ (_set_device_temp false d t).device.preset = d.preset)
    ∧ ((_set_device_mode false d m).ok = false
      ∧ (_set_device_mode false d m).device.hass_available = false
      ∧ (_set_device_mode false d m).device.temp = d.temp
      ∧ (_set_device_mode false d m).device.mode = d.mode
      ∧ (_set_device_mode false d m).device.power = d.power
      ∧ (_set_device_mode false d m).device.preset = d.preset)
    ∧ ((_set_device_preset false d p).ok = false
      ∧ (_set_device_preset false d p).device.hass_available = false
      ∧ (_set_device_preset false d p).device.temp = d.temp
      ∧ (_set_device_preset false d p).device.mode = d.mode
      ∧ (_set_device_preset false d p).device.power = d.power
      ∧ (_set_device_preset false d p).device.preset = d.preset) := by
  refine ⟨⟨rfl, rfl, rfl, rfl, rfl, rfl⟩, ⟨rfl, rfl, rfl, rfl, rfl, rfl⟩, ?_⟩
  unfold _set_device_preset
  split_ifs <;> first | exact ⟨rfl, rfl, rfl, rfl, rfl, rfl⟩ | simp_all

/-- C6: the climate entity's three derived properties are the stated pure
conditionals over the cached vendor fields. -/
theorem c6_derived_properties (rdev : EquationDevice) :
    (hvac_mode rdev = HVACMode.OFF ↔ rdev.power = false)
    ∧ (hvac_mode rdev = HVACMode.AUTO
        ↔ (rdev.power = true ∧ rdev.mode = RADIATOR_MODE_AUTO))
    ∧ (hvac_mode rdev = HVACMode.HEAT
        ↔ (rdev.power = true ∧ rdev.mode ≠ RADIATOR_MODE_AUTO))
    ∧ (hvac_action rdev = HVACAction.OFF ↔ rdev.power = false)
    ∧ (hvac_action rdev = HVACAction.HEATING ↔ rdev.power = true)
    ∧ (rdev.preset = RADIATOR_PRESET_ECO → preset_mode rdev = some PRESET_ECO)
    ∧ (rdev.preset = RADIATOR_PRESET_COMFORT → preset_mode rdev = some PRESET_COMFORT)
    ∧ (rdev.preset = RADIATOR_PRESET_ICE → preset_mode rdev = some PRESET_EQUATION_ICE)
    ∧ (rdev.preset ≠ RADIATOR_PRESET_ECO → rdev.preset ≠ RADIATOR_PRESET_COMFORT →
        rdev.preset ≠ RADIATOR_PRESET_ICE → preset_mode rdev = none) := by
  have dOA : HVACMode.AUTO ≠ HVACMode.OFF := by decide
  have dOA2 : HVACMode.OFF ≠ HVACMode.AUTO := by decide
  have dHA : HVACMode.HEAT ≠ HVACMode.AUTO := by decide
  have dOH : HVACMode.OFF ≠ HVACMode.HEAT := by decide
  have dAH : HVACMode.AUTO ≠ HVACMode.HEAT := by decide
  have dHO : HVACMode.HEAT ≠ HVACMode.OFF := by decide
  have aOH : HVACAction.OFF ≠ HVACAction.HEATING := by decide
  have aHO : HVACAction.HEATING ≠ HVACAction.OFF := by decide
  have pCE : RADIATOR_PRESET_COMFORT ≠ RADIATOR_PRESET_ECO := by decide
  have pIE : RADIATOR_PRESET_ICE ≠ RADIATOR_PRESET_ECO := by decide
  have pIC : RADIATOR_PRESET_ICE ≠ RADIATOR_PRESET_COMFORT := by decide
  refine ⟨?_, ?_, ?_, ?_, ?_, ?_, ?_, ?_, ?_⟩
  · cases hpw : rdev.power
    · simp [hvac_mode, hpw]
    · by_cases hm : rdev.mode = RADIATOR_MODE_AUTO <;>
        simp [hvac_mode, hpw, hm, dOA, dHO]
  · cases hpw : rdev.power
    · simp [hvac_mode, hpw, dOA2]
    · by_cases hm : rdev.mode = RADIATOR_MODE_AUTO <;>
        simp [hvac_mode, hpw, hm, dHA]
  · cases hpw : rdev.power
    · simp [hvac_mode, hpw, dOH]
    · by_cases hm : rdev.mode = RADIATOR_MODE_AUTO <;>
        simp [hvac_mode, hpw, hm, dAH]
  · cases hpw : rdev.power <;> simp [hvac_action, hpw, aHO]
  · cases hpw : rdev.power <;> simp [hvac_action, hpw, aOH]
  · intro h
    simp [preset_mode, h]
  · intro h
    simp [preset_mode, h, pCE]
  · intro h
    simp [preset_mode, h, pIE, pIC]
  · intro h1 h2 h3
    simp [preset_mode, h1, h2, h3]

/-- C6 witness: a powered-on manual-mode device with preset `"none"` reports
HEAT, HEATING and no preset. -/
theorem c6_witness :
    preset_mode sampleDevice = none :=
  (c6_derived_properties sampleDevice).2.2.2.2.2.2.2.2 (by decide) (by decide) (by decide)

/-- C9: for a preset string other than `PRESET_COMFORT`, `PRESET_ECO` and
`"Anti-frost"`, `_set_device_preset` re-sends the device's current preset to
the vendor API, and a successful call leaves `power`, `mode` and `preset`
unchanged. -/
theorem c9_unknown_preset_noop (s : Bool) (d : EquationDevice) (p : String)
    (h1 : p ≠ PRESET_COMFORT) (h2 : p ≠ PRESET_ECO) (h3 : p ≠ PRESET_EQUATION_ICE) :
    (_set_device_preset s d p).calls = [ApiCall.set_device_preset d.id d.preset]
    ∧ (s = true →
        (_set_device_preset s d p).device.power = d.power
        ∧ (_set_device_preset s d p).device.mode = d.mode
        ∧ (_set_device_preset s d p).device.preset = d.preset) := by
  unfold _set_device_preset
  rw [if_neg h1, if_neg h2, if_neg h3]
  cases s
  · exact ⟨rfl, fun h => by cases h⟩
  · exact ⟨rfl, fun _ => ⟨rfl, rfl, rfl⟩⟩

/-- C9 witness: the preset string `"boost"` is re-sent as the device's
current preset and, on success, the mirrored state is unchanged. -/
theorem c9_witness :
    (_set_device_preset true sampleDevice "boost").calls
      = [ApiCall.set_device_preset sampleDevice.id sampleDevice.preset]
    ∧ (_set_device_preset true sampleDevice "boost").device.preset
      = sampleDevice.preset :=
  ⟨(c9_unknown_preset_noop true sampleDevice "boost" (by decide) (by decide) (by decide)).1,
    ((c9_unknown_preset_noop true sampleDevice "boost" (by decide) (by decide)
      (by decide)).2 rfl).2.2⟩

/-- C10: a successful `CMD_SET_HVAC_MODE` command with `HVACMode.OFF` leaves
the mirrored device powered off with preset the string `"off"`, which the
entity's `preset_mode` property maps to `None`; a device that was in manual
mode has its cached temperature reset to the default temperature 20. -/
theorem c10_hvac_off (d : EquationDevice) :
    (send_command true d CMD_SET_HVAC_MODE (CmdArg.str HVACMode.OFF)).ok = true
    ∧ (send_command true d CMD_SET_HVAC_MODE (CmdArg.str HVACMode.OFF)).device.power = false
    ∧ (send_command true d CMD_SET_HVAC_MODE (CmdArg.str HVACMode.OFF)).device.preset
        = HVACMode.OFF
    ∧ preset_mode (send_command true d CMD_SET_HVAC_MODE (CmdArg.str HVACMode.OFF)).device
        = none
    ∧ (d.mode = RADIATOR_MODE_MANUAL →
        (send_command true d CMD_SET_HVAC_MODE (CmdArg.str HVACMode.OFF)).device.temp
          = RADIATOR_DEFAULT_TEMPERATURE)
    ∧ RADIATOR_DEFAULT_TEMPERATURE = 20 := by
  have hdisp : send_command true d CMD_SET_HVAC_MODE (CmdArg.str HVACMode.OFF)
      = _set_device_mode true d HVACMode.OFF := by
    rw [send_command, if_neg (by decide), if_neg (by decide), if_pos rfl]
    rfl
  rw [hdisp]
  have hoff : _set_device_mode true d HVACMode.OFF
      = ⟨{ (if d.mode = RADIATOR_MODE_MANUAL then
              { d with temp := RADIATOR_DEFAULT_TEMPERATURE } else d) with
            power := false, preset := HVACMode.OFF }, true,
          [ApiCall.set_device_mode d.id HVACMode.OFF]⟩ := by
    rw [_set_device_mode]
    simp
  rw [hoff]
  refine ⟨rfl, rfl, rfl, ?_, ?_, rfl⟩
  · simp [preset_mode, HVACMode.OFF, RADIATOR_PRESET_ECO, RADIATOR_PRESET_COMFORT,
      RADIATOR_PRESET_ICE]
  · intro hm
    simp [hm]

/-- C10 witness: a powered-on manual-mode device turned OFF ends with
`power = false`, preset `"off"`, reported preset `None`, and temperature
reset to 20. -/
theorem c10_witness :
    (send_command true sampleDevice CMD_SET_HVAC_MODE (CmdArg.str HVACMode.OFF)).device.temp
      = RADIATOR_DEFAULT_TEMPERATURE :=
  (c10_hvac_off sampleDevice).2.2.2.2.1 rfl

/-- A second cached device, initially unavailable. -/
def sampleDeviceB : EquationDevice :=
  { sampleDevice with id := "rad2", name := "Bedroom", hass_available := false }

/-- A valid device payload of a supported type. -/
def sampleDeviceData : DeviceData :=
  { data := some
      { type := some "radiator"
        product_version := some "v2"
        name := some "New radiator"
        other_keys := false }
    firmware := some { firmware_version_device := some "1.0.0" } }

/-- The malformed payload of device `"a1"`: truthy (it has a `"name"` key)
but without a `"type"` key. -/
def c7CrashPayload : DeviceDataPayload :=
  { type := none
    product_version := none
    name := some "Broken"
    other_keys := false }

/-- Environment refuting C7: the installation succeeds; the base-data
request fails for `"f1"` only; `"a1"` and `"b1"` both succeed, but `"a1"`
is a new device whose truthy payload has no `"type"` key. -/
def c7CrashEnv : UpdateEnv :=
  { installation_response := { success := true, data := ["f1", "a1", "b1"] }
    base_data := fun device_id =>
      if device_id = "f1" then
        { success := false, data := { data := none, firmware := none } }
      else if device_id = "a1" then
        { success := true, data := { data := some c7CrashPayload, firmware := none } }
      else { success := true, data := sampleDeviceData }
    energy_data := fun _ => { success := true, data := { raw := "energy" } }
    firmware_response := { success := false, data := none }
    product_lookup := fun _ _ => none }

def c7CrashCache : DeviceDict := [("f1", sampleDevice)]

/-- C7 counterexample: although the installation request succeeds and only
`"f1"`'s base-data request fails, processing `"a1"` (a successful response
whose truthy payload lacks a `"type"` key) raises `KeyError` at
`device_data["data"]["type"]` (device_manager.py line 268), so `update()`
aborts: `"b1"` is NOT processed and no discovered-devices dict is returned,
refuting the claim's "the other devices are still processed". -/
theorem c7_counterexample :
    c7CrashEnv.installation_response.success = true
    ∧ (c7CrashEnv.base_data "f1").success = false
    ∧ (c7CrashEnv.base_data "a1").success = true
    ∧ (c7CrashEnv.base_data "b1").success = true
    ∧ ((c7CrashEnv.base_data "a1").data.data.map DeviceDataPayload.isTruthy) = some true
    ∧ ((c7CrashEnv.base_data "a1").data.data.map DeviceDataPayload.type) = some none
    ∧ update c7CrashEnv c7CrashCache = none := by
  refine ⟨rfl, rfl, rfl, rfl, rfl, rfl, rfl⟩

/-- C7 (amended): `update()` isolates failures in every run that completes
without an uncaught exception. A failed installation-devices request marks
every cached device unavailable and returns an empty discovered dict. When
the installation request succeeds and `update()` returns, a device whose
base-data request failed is marked unavailable (if cached) and omitted from
the discovered dict, and every processed device gets the outcome
`deviceStep` of only its own responses and prior cache entry; but a
malformed payload (a truthy `"data"` dict without `"type"` reaching the
new-device branch, or a missing `"firmware"` key when a firmware map is
present) raises `KeyError` and aborts the whole run. -/
theorem c7_update_failure_isolation (env : UpdateEnv) (cache : DeviceDict) :
    (env.installation_response.success = false →
      update env cache = some (_fail_all_devices cache, [])
      ∧ ∀ device_id, alistGet (_fail_all_devices cache) device_id
          = (alistGet cache device_id).map (fun d => { d with hass_available := false }))
    ∧ (env.installation_response.success = true →
      ∀ cF disc, update env cache = some (cF, disc) →
        ∀ device_id, device_id ∈ processedIds env →
          ((env.base_data device_id).success = false →
            alistGet cF device_id
              = (alistGet cache device_id).map (fun d => { d with hass_available := false })
            ∧ alistGet disc device_id = none)
          ∧ ((env.base_data device_id).success = true →
            deviceStep env (fwMapOf env.firmware_response) (alistGet cache device_id)
                device_id
              = some (alistGet cF device_id, alistGet disc device_id))) := by
  constructor
  · intro h
    constructor
    · rw [update, if_pos (by simp [h])]
    · exact fun device_id => alistGet_fail_all cache device_id
  · intro h cF disc hupd device_id hmem
    rw [update, if_neg (by simp [h])] at hupd
    have hkey := (updateLoop_get env (fwMapOf env.firmware_response) (processedIds env)
      cache cF disc (nodup_dedupKeys _ _) hupd device_id).1 hmem
    constructor
    · intro hb
      have hds : deviceStep env (fwMapOf env.firmware_response)
          (alistGet cache device_id) device_id
          = some ((alistGet cache device_id).map
              (fun d => { d with hass_available := false }), none) := by
        simp [deviceStep, hb]
      rw [hds] at hkey
      simp only [Option.some_inj, Prod.mk.injEq] at hkey
      exact ⟨hkey.1.symm, hkey.2.symm⟩
    · intro _
      exact hkey

/-- Concrete update environment: installation lists three ids; the base-data
request for `"rad1"` fails, the others succeed with valid payloads, so the
run returns. -/
def sampleUpdateEnv : UpdateEnv :=
  { installation_response := { success := true, data := ["rad1", "rad2", "rad3"] }
    base_data := fun device_id =>
      if device_id = "rad1" then
        { success := false, data := { data := none, firmware := none } }
      else { success := true, data := sampleDeviceData }
    energy_data := fun _ => { success := true, data := { raw := "energy" } }
    firmware_response := { success := false, data := none }
    product_lookup := fun _ _ => none }

def sampleCache : DeviceDict := [("rad1", sampleDevice), ("rad2", sampleDeviceB)]

/-- The cache after the concrete `update()` run. -/
def c7CacheAfter : DeviceDict :=
  [("rad1", { sampleDevice with hass_available := false }),
   ("rad2", ({ sampleDeviceB with hass_available := true }).update_data sampleDeviceData
      (some { raw := "energy" }) none),
   ("rad3", EquationDevice.fromApi sampleDeviceData (some { raw := "energy" }) "rad3" none)]

/-- The discovered-devices dict of the concrete `update()` run. -/
def c7Discovered : List (String × EquationDevice) :=
  [("rad3", EquationDevice.fromApi sampleDeviceData (some { raw := "energy" }) "rad3" none)]

/-- C7 witness: the concrete run returns; `"rad1"` (base data failed) is
marked unavailable and not discovered, while cached `"rad2"` (success) is
still processed per its own `deviceStep` outcome. -/
theorem c7_witness :
    update sampleUpdateEnv sampleCache = some (c7CacheAfter, c7Discovered)
    ∧ alistGet c7CacheAfter "rad1" = some { sampleDevice with hass_available := false }
    ∧ alistGet c7Discovered "rad1" = none
    ∧ deviceStep sampleUpdateEnv (fwMapOf sampleUpdateEnv.firmware_response)
        (some sampleDeviceB) "rad2"
      = some (alistGet c7CacheAfter "rad2", alistGet c7Discovered "rad2") := by
  have hupd : update sampleUpdateEnv sampleCache = some (c7CacheAfter, c7Discovered) := by
    rfl
  have h := (c7_update_failure_isolation sampleUpdateEnv sampleCache).2 rfl
    c7CacheAfter c7Discovered hupd
  have h1 := (h "rad1" (by decide)).1 rfl
  have h2 := (h "rad2" (by decide)).2 rfl
  refine ⟨hupd, ?_, h1.2, h2⟩
  rw [h1.1]
  rfl

/-- Concrete environment for C8: one cached device id, whose base-data
request succeeds but carries no `"data"` key (a falsy payload). -/
def c8Env : UpdateEnv :=
  { installation_response := { success := true, data := ["rad2"] }
    base_data := fun _ => { success := true, data := { data := none, firmware := none } }
    energy_data := fun _ => { success := true, data := { raw := "e" } }
    firmware_response := { success := false, data := none }
    product_lookup := fun _ _ => none }

def c8Cache : DeviceDict := [("rad2", sampleDeviceB)]

/-- C8 counterexample: a successful base-data response for the cached,
unavailable device `"rad2"` whose payload is falsy is dropped by
`_add_or_update_device` without restoring `hass_available`: the claim's
"sets that device's hass_available flag back to True" fails on it. -/
theorem c8_counterexample :
    (c8Env.base_data "rad2").success = true
    ∧ alistGet c8Cache "rad2" = some sampleDeviceB
    ∧ sampleDeviceB.hass_available = false
    ∧ _add_or_update_device c8Cache (c8Env.base_data "rad2").data
        (some (c8Env.energy_data "rad2").data) "rad2" none = some (c8Cache, none)
    ∧ update c8Env c8Cache = some (c8Cache, [])
    ∧ (alistGet c8Cache "rad2").map EquationDevice.hass_available = some false := by
  refine ⟨rfl, rfl, rfl, rfl, rfl, rfl⟩

/-- C8 (amended): when a successful base-data response carrying a non-empty
`"data"` payload arrives for a cached device id, `_add_or_update_device`
restores `hass_available` to True, updates the device in place via
`update_data`, and returns None; and `update()` never includes an
already-cached device id in its returned discovered-devices dict, in every
run in which it returns. -/
theorem c8_restore_and_no_rediscovery (cache : DeviceDict) (dd : DeviceData)
    (energy : Option EnergyConsumptionData) (device_id : String) (fw : Option String)
    (t : EquationDevice) (hc : alistGet cache device_id = some t)
    (payload : DeviceDataPayload) (hpay : dd.data = some payload)
    (htr : payload.isTruthy = true) :
    _add_or_update_device cache dd energy device_id fw
      = some (dictInsert device_id
          ((if ¬ t.hass_available then { t with hass_available := true }
            else t).update_data dd energy fw) cache, none)
    ∧ alistGet (dictInsert device_id
          ((if ¬ t.hass_available then { t with hass_available := true }
            else t).update_data dd energy fw) cache) device_id
      = some ((if ¬ t.hass_available then { t with hass_available := true }
          else t).update_data dd energy fw)
    ∧ ((if ¬ t.hass_available then { t with hass_available := true }
          else t).update_data dd energy fw).hass_available = true
    ∧ (∀ env c2 cF disc, env.installation_response.success = true →
        (alistGet c2 device_id).isSome = true →
        update env c2 = some (cF, disc) →
        alistGet disc device_id = none) := by
  refine ⟨?_, ?_, ?_, ?_⟩
  · simp [_add_or_update_device, hpay, htr, hc]
  · exact alistGet_dictInsert_self device_id _ cache
  · by_cases ha : t.hass_available <;> simp [EquationDevice.update_data, ha]
  · intro env c2 cF disc hs hcached hupd
    rw [update, if_neg (by simp [hs])] at hupd
    by_cases hmem : device_id ∈ processedIds env
    · obtain ⟨t2, ht2⟩ := Option.isSome_iff_exists.mp hcached
      have hkey := (updateLoop_get env (fwMapOf env.firmware_response) (processedIds env)
        c2 cF disc (nodup_dedupKeys _ _) hupd device_id).1 hmem
      rw [ht2] at hkey
      exact deviceStep_cached_not_discovered env _ t2 device_id _ _ hkey
    · exact ((updateLoop_get env (fwMapOf env.firmware_response) (processedIds env)
        c2 cF disc (nodup_dedupKeys _ _) hupd device_id).2 hmem).2

/-- C8 witness: a successful, valid response for the cached unavailable
device `"rad2"` restores it to available and discovers nothing. -/
theorem c8_witness :
    (_add_or_update_device [("rad2", sampleDeviceB)] sampleDeviceData
        (some { raw := "e" }) "rad2" none).map Prod.snd = some none
    ∧ ((_add_or_update_device [("rad2", sampleDeviceB)] sampleDeviceData
        (some { raw := "e" }) "rad2" none).map
        (fun res => (alistGet res.1 "rad2").map EquationDevice.hass_available))
      = some (some true) := by
  have h := c8_restore_and_no_rediscovery [("rad2", sampleDeviceB)] sampleDeviceData
    (some { raw := "e" }) "rad2" none sampleDeviceB (by decide)
    { type := some "radiator", product_version := some "v2", name := some "New radiator", other_keys := false }
    (by decide) (by decide)
  constructor
  · rw [h.1]
    rfl
  · rw [h.1]
    simp only [Option.map_some']
    rw [h.2.1, Option.map_some', h.2.2.1]

/-- Climate environment for concrete runs: the radiator reports power on at
every refresh, and every vendor call after the first fails. -/
def sampleClimateEnv : ClimateEnv :=
  { api_success := fun i => i == 0
    refresh_device := fun _ => sampleDevice }

def sampleClimateState : ClimateState :=
  { radiator := sampleDevice
    _last_hvac_mode := some HVACMode.HEAT
    _last_target_temperature := none
    _last_preset_mode := some PRESET_ECO }

/-- C1 counterexample: `async_turn_on` raises `HomeAssistantError` (from the
preset re-apply step) even though the radiator reports power on right after
the first attempt, refuting the claim that the error is raised only when
the power state is still wrong after the third attempt. -/
theorem c1_counterexample :
    (async_turn_on sampleClimateEnv ⟨sampleClimateState, 0, 0, []⟩).2
      = Outcome.error "Failed to set preset mode"
    ∧ (sampleClimateEnv.refresh_device 0).power = true
    ∧ countCmd CMD_SET_HVAC_MODE
        (async_turn_on sampleClimateEnv ⟨sampleClimateState, 0, 0, []⟩).1.trace = 1 := by
  refine ⟨rfl, rfl, rfl⟩

/-- C1 (amended): both force loops send the HVAC-mode command at most three
times and return normally as soon as the refreshed device reports the
desired power state, after exactly `i + 1` sends when the `i`-th refresh
first reports it; `async_turn_off` raises iff the device still reports
power after the third attempt; `async_turn_on` raises iff either the device
still reports no power after the third attempt, or power was observed but
re-applying the remembered preset mode or target temperature failed. -/
theorem c1_retry_bounded (env : ClimateEnv) (st : ClimateState) (a r : Nat) :
    (countCmd CMD_SET_HVAC_MODE (async_turn_off env ⟨st, a, r, []⟩).1.trace ≤ 3
      ∧ (match firstHit (fun i => !(powerObs env r i)) 3 with
         | some i =>
              (async_turn_off env ⟨st, a, r, []⟩).2 = Outcome.ok
            ∧ countCmd CMD_SET_HVAC_MODE (async_turn_off env ⟨st, a, r, []⟩).1.trace = i + 1
         | none =>
              (async_turn_off env ⟨st, a, r, []⟩).2
                = Outcome.error "Failed to turn off radiator"
            ∧ countCmd CMD_SET_HVAC_MODE (async_turn_off env ⟨st, a, r, []⟩).1.trace = 3))
    ∧ (countCmd CMD_SET_HVAC_MODE (async_turn_on env ⟨st, a, r, []⟩).1.trace ≤ 3
      ∧ (match firstHit (fun i => powerObs env r i) 3 with
         | some i =>
              countCmd CMD_SET_HVAC_MODE (async_turn_on env ⟨st, a, r, []⟩).1.trace = i + 1
            ∧ ((async_turn_on env ⟨st, a, r, []⟩).2 = Outcome.ok ↔
                ((pyTruthyStr st._last_preset_mode
                    || st._last_target_temperature.isSome) = true →
                  env.api_success (a + i + 1) = true))
         | none =>
              (async_turn_on env ⟨st, a, r, []⟩).2
                = Outcome.error "Failed to turn on radiator"
            ∧ countCmd CMD_SET_HVAC_MODE (async_turn_on env ⟨st, a, r, []⟩).1.trace = 3)) := by
  have ho : (async_turn_off env ⟨st, a, r, []⟩).2
      = (match firstHit (fun i => !(powerObs env r i)) 3 with
         | some _ => Outcome.ok
         | none => Outcome.error "Failed to turn off radiator") :=
    turnOffGo_outcome env 3 _
  have hc : countCmd CMD_SET_HVAC_MODE (async_turn_off env ⟨st, a, r, []⟩).1.trace
      = 0 + (match firstHit (fun i => !(powerObs env r i)) 3 with
         | some i => i + 1
         | none => 3) :=
    turnOffGo_count env 3 _
  have ho2 : (async_turn_on env ⟨st, a, r, []⟩).2
      = (match firstHit (fun i => powerObs env r i) 3 with
         | none => Outcome.error "Failed to turn on radiator"
         | some i =>
           if pyTruthyStr st._last_preset_mode then
             (if env.api_success (a + i + 1) then Outcome.ok
              else Outcome.error "Failed to set preset mode")
           else
             match st._last_target_temperature with
             | some _ =>
               (if env.api_success (a + i + 1) then Outcome.ok
                else Outcome.error "Failed to set temperature")
             | none => Outcome.ok) :=
    turnOnGo_outcome env (orStr st._last_hvac_mode HVACMode.HEAT) 3 _
  have hc2 : countCmd CMD_SET_HVAC_MODE (async_turn_on env ⟨st, a, r, []⟩).1.trace
      = 0 + (match firstHit (fun i => powerObs env r i) 3 with
         | some i => i + 1
         | none => 3) :=
    turnOnGo_count env (orStr st._last_hvac_mode HVACMode.HEAT) 3 _
  constructor
  · rcases hx : firstHit (fun i => !(powerObs env r i)) 3 with _ | i
    · simp only [hx] at ho hc
      simp only [Nat.zero_add] at hc
      exact ⟨by rw [hc], ⟨ho, hc⟩⟩
    · simp only [hx] at ho hc
      simp only [Nat.zero_add] at hc
      have hlt := firstHit_lt 3 (fun i => !(powerObs env r i)) i hx
      exact ⟨by rw [hc]; exact hlt, ⟨ho, hc⟩⟩
  · rcases hx : firstHit (fun i => powerObs env r i) 3 with _ | i
    · simp only [hx] at ho2 hc2
      simp only [Nat.zero_add] at hc2
      exact ⟨by rw [hc2], ⟨ho2, hc2⟩⟩
    · simp only [hx] at ho2 hc2
      simp only [Nat.zero_add] at hc2
      have hlt := firstHit_lt 3 (fun i => powerObs env r i) i hx
      refine ⟨by rw [hc2]; exact hlt, ⟨hc2, ?_⟩⟩
      rw [ho2]
      by_cases hpt : pyTruthyStr st._last_preset_mode = true
      · simp only [hpt, if_true, Bool.true_or]
        by_cases ha : env.api_success (a + i + 1) = true
        · simp [ha]
        · simp [ha]
      · have hptf : pyTruthyStr st._last_preset_mode = false := by simpa using hpt
        simp only [hptf, Bool.false_eq_true, if_false, Bool.false_or]
        rcases hT : st._last_target_temperature with _ | t
        · simp [hT]
        · simp only [hT, Option.isSome_some]
          by_cases ha : env.api_success (a + i + 1) = true
          · simp [ha]
          · simp [ha]

/-- C2: `async_turn_off` records the entity's `hvac_mode`,
`target_temperature` and `preset_mode` property values, computed from the
radiator state at entry (before the OFF command is issued); `async_turn_on`
sends the remembered HVAC mode (HEAT when none was recorded) in every
attempt, and once power is observed it re-applies the remembered preset
mode if one was recorded, else the remembered target temperature if one was
recorded, else sends no further command. The `_last_*` fields only ever
hold property values or `None`, never the empty string, hence the two
non-empty-string hypotheses. -/
theorem c2_reconciliation (env : ClimateEnv) (st : ClimateState) (a r : Nat)
    (hh : st._last_hvac_mode ≠ some "") (hp : st._last_preset_mode ≠ some "") :
    ((async_turn_off env ⟨st, a, r, []⟩).1.st._last_hvac_mode
        = some (hvac_mode st.radiator)
      ∧ (async_turn_off env ⟨st, a, r, []⟩).1.st._last_target_temperature
        = some (target_temperature st.radiator)
      ∧ (async_turn_off env ⟨st, a, r, []⟩).1.st._last_preset_mode
        = preset_mode st.radiator)
    ∧ ((∀ arg, ClimateEvent.command CMD_SET_HVAC_MODE arg
          ∈ (async_turn_on env ⟨st, a, r, []⟩).1.trace →
          arg = CmdArg.str (orStr st._last_hvac_mode HVACMode.HEAT))
      ∧ (st._last_hvac_mode = none → orStr st._last_hvac_mode HVACMode.HEAT = HVACMode.HEAT)
      ∧ (∀ m, st._last_hvac_mode = some m → orStr st._last_hvac_mode HVACMode.HEAT = m)
      ∧ ((firstHit (fun i => powerObs env r i) 3).isSome = true →
          match st._last_preset_mode with
          | some p => ClimateEvent.command CMD_SET_PRESET (CmdArg.str p)
              ∈ (async_turn_on env ⟨st, a, r, []⟩).1.trace
          | none =>
            match st._last_target_temperature with
            | some t => ClimateEvent.command CMD_SET_TEMP (CmdArg.num t)
                ∈ (async_turn_on env ⟨st, a, r, []⟩).1.trace
            | none => ∀ c arg, ClimateEvent.command c arg
                ∈ (async_turn_on env ⟨st, a, r, []⟩).1.trace → c = CMD_SET_HVAC_MODE)) := by
  refine ⟨⟨?_, ?_, ?_⟩, ?_, ?_, ?_, ?_⟩
  · exact (turnOffGo_last env 3 _).1
  · exact (turnOffGo_last env 3 _).2.1
  · exact (turnOffGo_last env 3 _).2.2
  · have hempty : hvacArgsOnly (orStr st._last_hvac_mode HVACMode.HEAT)
        (([] : List ClimateEvent)) := by
      intro arg hm
      cases hm
    exact turnOnGo_hvacArgs env (orStr st._last_hvac_mode HVACMode.HEAT) 3
      ⟨st, a, r, []⟩ hempty
  · intro h
    rw [h]
    rfl
  · intro m hm
    have hmne : m ≠ "" := by
      intro he
      exact hh (by rw [hm, he])
    rw [hm, orStr]
    simp [hmne]
  · intro hsome
    rcases hP : st._last_preset_mode with _ | p
    · rcases hT : st._last_target_temperature with _ | t
      · simp only [hP, hT]
        have hempty : onlyHvacCmds (([] : List ClimateEvent)) := by
          intro c arg hm
          cases hm
        exact turnOnGo_onlyHvac env (orStr st._last_hvac_mode HVACMode.HEAT) 3
          ⟨st, a, r, []⟩ (by simp [pyTruthyStr, hP]) hT hempty
      · simp only [hP, hT]
        exact (turnOnGo_reapplies env (orStr st._last_hvac_mode HVACMode.HEAT) 3
          ⟨st, a, r, []⟩ hsome).2 (by simp [pyTruthyStr, hP]) t hT
    · simp only [hP]
      have hpne : p ≠ "" := by
        intro he
        exact hp (by rw [hP, he])
      have hpt : pyTruthyStr st._last_preset_mode = true := by
        rw [hP]
        simp [pyTruthyStr, hpne]
      have hmem := (turnOnGo_reapplies env (orStr st._last_hvac_mode HVACMode.HEAT) 3
        ⟨st, a, r, []⟩ hsome).1 hpt
      rw [hP] at hmem
      simpa using hmem

/-- C2 witness: with a remembered HEAT mode and eco preset, the recorded
fields and the preset re-application are as the theorem states. -/
theorem c2_witness :
    (async_turn_off sampleClimateEnv ⟨sampleClimateState, 0, 0, []⟩).1.st._last_hvac_mode
      = some (hvac_mode sampleClimateState.radiator) :=
  (c2_reconciliation sampleClimateEnv sampleClimateState 0 0 (by decide) (by decide)).1.1

/-- C1 witness: in the concrete environment the radiator keeps reporting
power on, so `async_turn_off` exhausts its three attempts and raises. -/
theorem c1_witness :
    (async_turn_off sampleClimateEnv ⟨sampleClimateState, 0, 0, []⟩).2
      = Outcome.error "Failed to turn off radiator"
    ∧ countCmd CMD_SET_HVAC_MODE
        (async_turn_off sampleClimateEnv ⟨sampleClimateState, 0, 0, []⟩).1.trace = 3 := by
  have h := (c1_retry_bounded sampleClimateEnv sampleClimateState 0 0).1.2
  have hfh : firstHit (fun i => !(powerObs sampleClimateEnv 0 i)) 3 = none := rfl
  rw [hfh] at h
  exact h
